import Mathlib

/-!
# Study Mode: settings resolution and suppression engine

A shallow embedding of `contentScript.js`, `popup.js` and `options.js`.

* JavaScript data is embedded as `Val`; a finite number is the rational it
  denotes, next to `NaN` and the two infinities (the code only compares
  numbers, it never does arithmetic on them).
* A record `Val.obj ps` is the object obtained by defining the bindings of `ps`
  one after the other, so a later binding of a key replaces an earlier one
  (as `JSON.parse` does).  The order of the keys is the order of insertion;
  the engine's re-ordering of integer-like keys is not represented.
* What the language runtime supplies and the repository does not contain
  (number/string conversion, `JSON.stringify`, property reads on arrays and
  primitives, selector matching) is a field of `Engine`.
* A function that can throw returns `Option`; `none` is the exception.
* Time is the value of `Date.now()`, an integer number of milliseconds; a
  pending timeout is represented by its due time.
-/

namespace StudyMode

/-! ## Numbers -/

/-- JavaScript numbers: `NaN`, the infinities and the finite values. -/
inductive JSNum where
  | nan
  | negInf
  | fin (q : ℚ)
  | posInf
deriving DecidableEq

namespace JSNum

/-- The test `Number.isNaN`. -/
def isNaN : JSNum → Bool
  | nan => true
  | _ => false

/-- Strict comparison `a < b`; false as soon as one side is `NaN`. -/
def lt : JSNum → JSNum → Bool
  | nan, _ => false
  | _, nan => false
  | negInf, negInf => false
  | negInf, _ => true
  | _, negInf => false
  | posInf, _ => false
  | fin _, posInf => true
  | fin x, fin y => decide (x < y)

/-- The function `Math.max` on two arguments. -/
def mathMax (a b : JSNum) : JSNum :=
  if a.isNaN || b.isNaN then nan else if lt a b then b else a

/-- The function `Math.min` on two arguments. -/
def mathMin (a b : JSNum) : JSNum :=
  if a.isNaN || b.isNaN then nan else if lt b a then b else a

/-- A number lies in the closed interval of two rationals. -/
def within (lo hi : ℚ) : JSNum → Prop
  | fin q => lo ≤ q ∧ q ≤ hi
  | _ => False

end JSNum

/-! ## Values -/

/-- JavaScript data values: what `JSON.parse` and the storage area deliver, and
also `undefined` and every number.  No value is a function. -/
inductive Val where
  | undefined
  | null
  | bool (b : Bool)
  | num (n : JSNum)
  | str (s : String)
  | arr (xs : List Val)
  | obj (ps : List (String × Val))

/-- The own properties of a record. -/
abbrev Props := List (String × Val)

/-- What a property read can produce: a data value, or one of the objects every
record inherits from (`Object.prototype` and its built-in functions). -/
inductive Ref where
  | val (v : Val)
  | native (name : String)
  | objectPrototype

/-- An element of the document: its tag name, the position of its parent
element in the document, the string `(el.className || "").toString()`, its
attributes and its inline `style.display`. -/
structure Elem where
  tagName : String
  parentElement : Option Nat
  className : String
  attrs : List (String × String)
  display : String

/-- The language runtime and the browser, as far as the code relies on them. -/
structure Engine where
  /-- The conversion of a string to a number (`Number("...")`). -/
  stringToNumber : String → JSNum
  /-- The conversion of a number to a string. -/
  numberToString : JSNum → String
  /-- A property read `r[k]` on what is not a record: an array, a string, a
  number, a boolean or a built-in function. -/
  exoticGet : Ref → String → Ref
  /-- The function `JSON.stringify`. -/
  jsonStringify : Val → Option String
  /-- The method `String.prototype.toLowerCase`. -/
  toLowerCase : String → String
  /-- Selector matching: does the element at a position of the document match
  the selector? -/
  selects : String → List Elem → Nat → Bool

/-- The conversion `Boolean(v)`. -/
def truthy : Val → Bool
  | .undefined => false
  | .null => false
  | .bool b => b
  | .num .nan => false
  | .num (.fin q) => decide (q ≠ 0)
  | .num _ => true
  | .str s => decide (s ≠ "")
  | .arr _ => true
  | .obj _ => true

/-- The conversion `Boolean(r)` of the result of a property read. -/
def Ref.truthy : Ref → Bool
  | .val v => StudyMode.truthy v
  | _ => true

/-- The test `typeof r === "object"`. -/
def Ref.isObjectType : Ref → Bool
  | .val .null => true
  | .val (.arr _) => true
  | .val (.obj _) => true
  | .val _ => false
  | .native _ => false
  | .objectPrototype => true

/-- The own property `k` of a record: its last binding. -/
def getOwn (k : String) : Props → Option Val
  | [] => none
  | (k', v) :: rest =>
    match getOwn k rest with
    | some x => some x
    | none => if k' = k then some v else none

/-- Rebind every occurrence of `k`. -/
def rebind (k : String) (v : Val) : Props → Props
  | [] => []
  | (k', v') :: rest => (k', if k' = k then v else v') :: rebind k v rest

/-- Define the own data property `k` (what an object literal or a spread does):
the value of an existing key is replaced, a new key comes last. -/
def define (ps : Props) (k : String) (v : Val) : Props :=
  if (getOwn k ps).isSome then rebind k v ps else ps ++ [(k, v)]

/-- The names `Object.prototype` gives to every record, the accessor
`__proto__` apart. -/
def objectPrototypeNames : List String :=
  ["constructor", "__defineGetter__", "__defineSetter__", "hasOwnProperty",
   "__lookupGetter__", "__lookupSetter__", "isPrototypeOf", "propertyIsEnumerable",
   "toString", "valueOf", "toLocaleString"]

/-- A read of `k` that reaches `Object.prototype` from a record. -/
def inheritedGet (k : String) : Ref :=
  if k = "__proto__" then .objectPrototype
  else if k ∈ objectPrototypeNames then .native k
  else .val .undefined

/-- The assignment `o[k] = v` on a record: an own property is updated, the
inherited setter `__proto__` creates no own property, any other key is added. -/
def assign (ps : Props) (k : String) (v : Val) : Props :=
  if (getOwn k ps).isSome then rebind k v ps
  else if k = "__proto__" then ps
  else ps ++ [(k, v)]

/-- The keys `"0"`, `"1"`, ... paired with the members of a list. -/
def indexedFrom : Nat → List Val → Props
  | _, [] => []
  | i, x :: xs => (toString i, x) :: indexedFrom (i + 1) xs

/-- The own enumerable properties of a value (`Object.entries`, `{...v}`). -/
def ownEntries : Val → Props
  | .obj ps => ps
  | .arr xs => indexedFrom 0 xs
  | .str s => indexedFrom 0 (s.data.map fun c => .str (String.singleton c))
  | _ => []

/-- The own enumerable properties of the result of a property read. -/
def Ref.ownEntries : Ref → Props
  | .val v => StudyMode.ownEntries v
  | _ => []

/-- The spread `{...out, ...src}` given the entries of `src`. -/
def spreadInto (out : Props) (src : Props) : Props :=
  src.foldl (fun acc e => define acc e.1 e.2) out

/-- The read `r[k]` on a value that is neither `null` nor `undefined`. -/
def Val.get (E : Engine) (v : Val) (k : String) : Ref :=
  match v with
  | .obj ps =>
    match getOwn k ps with
    | some x => .val x
    | none => inheritedGet k
  | other => E.exoticGet (.val other) k

/-- The read `v?.[k]`. -/
def Val.optGet (E : Engine) (v : Val) (k : String) : Ref :=
  match v with
  | .undefined => .val .undefined
  | .null => .val .undefined
  | other => other.get E k

/-- The read `r?.[k]` on the result of a read.  The members of
`Object.prototype` are functions, its own `__proto__` reads `null`. -/
def Ref.optGet (E : Engine) (r : Ref) (k : String) : Ref :=
  match r with
  | .val v => v.optGet E k
  | .objectPrototype =>
    if k ∈ objectPrototypeNames then .native k
    else if k = "__proto__" then .val .null else .val .undefined
  | .native n => E.exoticGet (.native n) k

/-- The read `e.k` on a fresh record for a key that `Object.prototype` does not
define: the own property, or `undefined`. -/
def field (ps : Props) (k : String) : Val :=
  (getOwn k ps).getD .undefined

/-! ## Conversions -/

mutual
/-- The conversion of a value to a string (`String(v)`, a template literal).
A record that has an own `toString` has no callable conversion left (stored
data holds no functions), which is a `TypeError`. -/
def toStringV (E : Engine) : Val → Option String
  | .undefined => some "undefined"
  | .null => some "null"
  | .bool b => some (if b then "true" else "false")
  | .num n => some (E.numberToString n)
  | .str s => some s
  | .arr xs => joinV E xs
  | .obj ps => if (getOwn "toString" ps).isSome then none else some "[object Object]"
/-- The method `Array.prototype.join` with the separator `","`. -/
def joinV (E : Engine) : List Val → Option String
  | [] => some ""
  | x :: rest =>
    let head : Option String :=
      match x with
      | .undefined => some ""
      | .null => some ""
      | other => toStringV E other
    match head, rest with
    | none, _ => none
    | some h, [] => some h
    | some h, _ :: _ =>
      match joinV E rest with
      | none => none
      | some t => some (h ++ "," ++ t)
end

/-- The conversion `Number(v)`. -/
def toNumber (E : Engine) : Val → Option JSNum
  | .undefined => some .nan
  | .null => some (.fin 0)
  | .bool b => some (.fin (if b then 1 else 0))
  | .num n => some n
  | .str s => some (E.stringToNumber s)
  | other => (toStringV E other).map E.stringToNumber

/-- Source: `clamp(n, min, max)`. -/
def clamp (E : Engine) (n : Val) (min max : JSNum) : Option JSNum :=
  match toNumber E n with
  | none => none
  | some x => if x.isNaN then some min else some (JSNum.mathMin max (JSNum.mathMax min x))

/-! ## Settings -/

/-- Source: the properties of `DEFAULTS.global`. -/
def DEFAULTS_global_props : Props :=
  [("enabled", .bool true), ("hideAds", .bool true), ("hideComments", .bool false),
   ("themeEnabled", .bool true), ("saturation", .num (.fin (mkRat 85 100))),
   ("contrast", .num (.fin (mkRat 108 100)))]

/-- Source: `DEFAULTS.global`. -/
def DEFAULTS_global : Val :=
  .obj DEFAULTS_global_props

/-- Source: `DEFAULTS`. -/
def DEFAULTS : Val :=
  .obj [("global", DEFAULTS_global), ("sites", .obj [])]

/-- The result of `computeEffective`. -/
structure Resolved where
  effective : Props
  hasSiteOverride : Bool

/-- Source: `settings?.global || DEFAULTS.global` in `computeEffective`. -/
def globalOf (E : Engine) (settings : Val) : Ref :=
  let g := settings.optGet E "global"
  if g.truthy then g else .val DEFAULTS_global

/-- Source: `settings?.sites?.[host]` in `computeEffective`. -/
def siteOf (E : Engine) (settings : Val) (host : String) : Ref :=
  (settings.optGet E "sites").optGet E host

/-- Source: `{ ...g, ...(site || {}) }` in `computeEffective`. -/
def mergedConfig (E : Engine) (settings : Val) (host : String) : Props :=
  let site := siteOf E settings host
  let siteOrEmpty := if site.truthy then site else .val (.obj [])
  spreadInto (spreadInto [] (globalOf E settings).ownEntries) siteOrEmpty.ownEntries

/-- Source: `computeEffective(settings, host)`. -/
def computeEffective (E : Engine) (settings : Val) (host : String) : Option Resolved :=
  let e0 := mergedConfig E settings host
  let e1 := assign e0 "enabled" (.bool (truthy (field e0 "enabled")))
  let e2 := assign e1 "hideAds" (.bool (truthy (field e1 "hideAds")))
  let e3 := assign e2 "hideComments" (.bool (truthy (field e2 "hideComments")))
  let e4 := assign e3 "themeEnabled" (.bool (truthy (field e3 "themeEnabled")))
  match clamp E (field e4 "saturation") (.fin (mkRat 3 10)) (.fin (mkRat 13 10)) with
  | none => none
  | some sat =>
    let e5 := assign e4 "saturation" (.num sat)
    match clamp E (field e5 "contrast") (.fin (mkRat 8 10)) (.fin (mkRat 14 10)) with
    | none => none
    | some con =>
      some { effective := assign e5 "contrast" (.num con),
             hasSiteOverride := (siteOf E settings host).truthy }

/-! ## Merging stored data into the defaults -/

mutual
/-- Source: the right-hand side of `out[k] = ...` in the loop of `deepMerge`,
for an entry value `v` and `bk`, the result of `base?.[k]`.  The recursive call
`deepMerge(base[k], v)` is made on a record `v`, so it is the loop again, on the
copy of `base[k]`.  `none`: `base[k]` is an array, whose copy would carry named
members, which `Val` does not represent. -/
def mergedValue (E : Engine) (bk : Ref) : Val → Option Val
  | .obj vs =>
    if bk.truthy && bk.isObjectType then
      match bk with
      | .val (.arr _) => none
      | _ => (deepMergeEntries E bk bk.ownEntries vs).map .obj
    else some (.obj vs)
  | v => some v
/-- Source: the loop of `deepMerge(base, patch)` over `Object.entries(patch)`,
`out` being the copy under construction. -/
def deepMergeEntries (E : Engine) (base : Ref) (out : Props) : Props → Option Props
  | [] => some out
  | (k, v) :: rest =>
    match mergedValue E (base.optGet E k) v with
    | none => none
    | some m => deepMergeEntries E base (assign out k m) rest
end

/-- Source: the same loop when `patch` is an array, whose entries are its
members under the keys `"0"`, `"1"`, ... -/
def deepMergeIndexed (E : Engine) (base : Ref) (out : Props) (i : Nat) : List Val → Option Props
  | [] => some out
  | v :: rest =>
    match deepMergeEntries E base out [(toString i, v)] with
    | none => none
    | some out1 => deepMergeIndexed E base out1 (i + 1) rest

/-- Source: `deepMerge(base, patch)`.  `none`: a copy of an array would have to
take named members (see `deepMergeEntries`); nothing in `deepMerge` throws. -/
def deepMerge (E : Engine) (base : Val) (patch : Val) : Option Val :=
  if !truthy patch || !(Ref.val patch).isObjectType then some base
  else
    match base, patch with
    | .arr _, _ => none
    | _, .obj ps => (deepMergeEntries E (.val base) (ownEntries base) ps).map .obj
    | _, .arr xs => (deepMergeIndexed E (.val base) (ownEntries base) 0 xs).map .obj
    | _, _ => some base

/-- Source: `getAllSettings()`, given what the storage area holds under
`STORAGE_KEY` (`undefined` when nothing is stored).  The result is the settings
returned and the content of the storage area afterwards. -/
def getAllSettings (E : Engine) (stored : Val) : Option (Val × Val) :=
  if !truthy stored then some (DEFAULTS, DEFAULTS)
  else
    match deepMerge E DEFAULTS stored with
    | none => none
    | some merged =>
      if E.jsonStringify merged ≠ E.jsonStringify stored then some (merged, merged)
      else some (merged, stored)

/-! ## The popup: writing a setting -/

/-- The module state of `popup.js`: `hostname`, `settings` (`null` until the
first load) and the checkbox `ui.useSiteOverride.checked`. -/
structure Popup where
  hostname : String
  settings : Val
  useSiteOverride : Bool

/-- Remove every binding of `k` (`delete o[k]`). -/
def deleteKey (k : String) (ps : Props) : Props :=
  ps.filter fun e => e.1 ≠ k

/-- Source: the first two statements of `saveSetting` and of
`toggleSiteOverride`: load `settings` when it is still `null`, then give it an
empty `sites` when it has none.  The result is the own properties of
`settings`; `none` when `settings` is not a record (`getAllSettings` only
returns records). -/
def loadedSettings (E : Engine) (stored : Val) (settings : Val) : Option Props :=
  let loaded : Option Val :=
    if !truthy settings then (getAllSettings E stored).map Prod.fst else some settings
  match loaded with
  | some (.obj ps) =>
    if !truthy (field ps "sites") then some (assign ps "sites" (.obj [])) else some ps
  | _ => none

/-- Source: `if (!settings.sites[hostname]) { ... settings.sites[hostname] =
{ ...effective } }`, on the record `sites`. `none` when `computeEffective`
throws. -/
def snapshotIfAbsent (E : Engine) (ps sites : Props) (hostname : String) : Option Props :=
  if !((Val.obj sites).get E hostname).truthy then
    match computeEffective E (.obj ps) hostname with
    | none => none
    | some r => some (assign sites hostname (.obj (spreadInto [] r.effective)))
  else some sites

/-- Source: `saveSetting(key, value)`, given the content of the storage area.
The result is the new value of `settings`, which is also what is written to the
storage area.  `none`: the call throws, or it writes to something that is not a
record of stored data (`settings.sites` or `settings.global` is an array, the
target is a built-in object). -/
def saveSetting (E : Engine) (stored : Val) (p : Popup) (key : String) (value : Val) :
    Option Val :=
  match loadedSettings E stored p.settings with
  | none => none
  | some ps =>
    if p.useSiteOverride then
      match field ps "sites" with
      | .obj sites =>
        match snapshotIfAbsent E ps sites p.hostname with
        | none => none
        | some sites1 =>
          match (Val.obj sites1).get E p.hostname with
          | .val (.obj o) =>
            some (.obj (assign ps "sites" (.obj (assign sites1 p.hostname (.obj (assign o key value))))))
          | .val .undefined => none
          | .val .null => none
          | .val (.arr _) => none
          | .val _ => some (.obj (assign ps "sites" (.obj sites1)))
          | _ => none
      | _ => none
    else
      match field ps "global" with
      | .obj g => some (.obj (assign ps "global" (.obj (assign g key value))))
      | .undefined => none
      | .null => none
      | .arr _ => none
      | _ => some (.obj ps)

/-- Source: `toggleSiteOverride(enable)`, with the same conventions as
`saveSetting`. -/
def toggleSiteOverride (E : Engine) (stored : Val) (p : Popup) (enable : Bool) : Option Val :=
  match loadedSettings E stored p.settings with
  | none => none
  | some ps =>
    match field ps "sites" with
    | .obj sites =>
      if enable then
        match snapshotIfAbsent E ps sites p.hostname with
        | none => none
        | some sites1 => some (.obj (assign ps "sites" (.obj sites1)))
      else some (.obj (assign ps "sites" (.obj (deleteKey p.hostname sites))))
    | _ => none

/-! ## The stylesheet -/

/-- Source: `AD_CSS_SELECTORS`. -/
def AD_CSS_SELECTORS : List String :=
  ["[id^=\"ad\" i]", "[id*=\"\x2dad\" i]", "[id*=\"_ad\" i]", "[id*=\" ad\" i]",
   "[class^=\"ad\" i]", "[class*=\"\x2dad\" i]", "[class*=\"_ad\" i]", "[class*=\" ad\" i]",
   "[id*=\"sponsor\" i]", "[class*=\"sponsor\" i]", "[id*=\"promoted\" i]",
   "[class*=\"promoted\" i]", "[id*=\"advert\" i]", "[class*=\"advert\" i]",
   ".adsbygoogle", "iframe[id*=\"google_ads\" i]", "iframe[src*=\"doubleclick\" i]"]

/-- Source: `COMMENT_CSS_SELECTORS`. -/
def COMMENT_CSS_SELECTORS : List String :=
  ["#comments", "[id*=\"comment\" i]", "[class*=\"comment\" i]", "#disqus_thread",
   "[class*=\"disqus\" i]", "[data\x2dtestid*=\"comment\" i]", "[data\x2dtest*=\"comment\" i]"]

/-- Source: `AD_DYNAMIC_SELECTORS`. -/
def AD_DYNAMIC_SELECTORS : List String :=
  ["[aria\x2dlabel*=\"sponsored\" i]", "[aria\x2dlabel*=\"promoted\" i]", "[data\x2dad]",
   "[data\x2dads]", "[data\x2dad\x2dslot]", "[data\x2dadunit]", "a[href*=\"doubleclick\" i]",
   "iframe[src*=\"doubleclick\" i]"]

/-- Source: `COMMENT_DYNAMIC_SELECTORS`. -/
def COMMENT_DYNAMIC_SELECTORS : List String :=
  ["#comments", "#disqus_thread", "[data\x2dtestid*=\"comment\" i]",
   "[data\x2dtest*=\"comment\" i]"]

/-- Source: the declaration `filter: saturate(${sat}) contrast(${con});` of the
theme block. -/
def filterDeclaration (sat con : String) : String :=
  "filter: saturate(" ++ sat ++ ") contrast(" ++ con ++ ");"

/-- Source: the first template of `buildCss`, up to the declaration `filter`. -/
def themeHead : String :=
  "\n/* \x2d\x2d\x2d\x2d Study Theme \x2d\x2d\x2d\x2d */\n" ++
  ":root \x7b color\x2dscheme: dark; \x7d\n" ++
  "html \x7b\n" ++
  "  "

/-- Source: the first template of `buildCss`, after the declaration `filter`. -/
def themeTail : String :=
  "\n" ++
  "\x7d\n" ++
  "body \x7b\n" ++
  "  background: #0b1220 !important;\n" ++
  "  color: #e5e7eb !important;\n" ++
  "\x7d\n" ++
  "a \x7b color: #93c5fd !important; \x7d\n" ++
  "img, video \x7b filter: saturate(1.03) contrast(1.03); \x7d\n" ++
  "\n" ++
  "/* Reduce annoying motion (best\x2deffort) */\n" ++
  "*, *::before, *::after \x7b\n" ++
  "  scroll\x2dbehavior: auto !important;\n" ++
  "  transition\x2dduration: 0.01ms !important;\n" ++
  "  animation\x2dduration: 0.01ms !important;\n" ++
  "  animation\x2diteration\x2dcount: 1 !important;\n" ++
  "\x7d\n"

/-- Source: the first template of `buildCss`, the theme block. -/
def themeBlock (sat con : String) : String :=
  themeHead ++ filterDeclaration sat con ++ themeTail

/-- Source: the two templates of `buildCss` that hide a list of selectors. -/
def hideBlock (title : String) (selectors : List String) : String :=
  "\n/* \x2d\x2d\x2d\x2d " ++ title ++ " (heuristics) \x2d\x2d\x2d\x2d */\n" ++
  String.intercalate ",\n" selectors ++ " \x7b\n" ++
  "  display: none !important;\n" ++
  "  visibility: hidden !important;\n" ++
  "\x7d\n"

/-- Source: `buildCss(effective)`.  `none`: a template throws on a value that
has no conversion to a string. -/
def buildCss (E : Engine) (effective : Props) : Option String :=
  if !truthy (field effective "enabled") then some ""
  else
    let css0 : Option String := some ""
    let css1 : Option String :=
      if truthy (field effective "themeEnabled") then
        match css0, toStringV E (field effective "saturation"),
              toStringV E (field effective "contrast") with
        | some css, some sat, some con => some (css ++ themeBlock sat con)
        | _, _, _ => none
      else css0
    let css2 : Option String :=
      if truthy (field effective "hideAds") then
        css1.map fun css => css ++ hideBlock "Hide Ads" AD_CSS_SELECTORS
      else css1
    if truthy (field effective "hideComments") then
      css2.map fun css => css ++ hideBlock "Hide Comments" COMMENT_CSS_SELECTORS
    else css2

/-! ## The document and the suppression of elements -/

/-- Source: `OBSERVER_ATTR`. -/
def OBSERVER_ATTR : String := "data\x2dstudy\x2dhidden"

/-- Source: `PREV_DISPLAY_ATTR`. -/
def PREV_DISPLAY_ATTR : String := "data\x2dstudy\x2dprev\x2ddisplay"

/-- The value of the attribute `k` in a list of attributes. -/
def attrValue (k : String) : List (String × String) → Option String
  | [] => none
  | (k', v) :: rest => if k' = k then some v else attrValue k rest

/-- A list of attributes without the attribute `k`. -/
def withoutAttr (k : String) : List (String × String) → List (String × String)
  | [] => []
  | (k', v) :: rest => if k' = k then withoutAttr k rest else (k', v) :: withoutAttr k rest

/-- The method `el.getAttribute(k)`; `none` is `null`. -/
def getAttribute (el : Elem) (k : String) : Option String :=
  attrValue k el.attrs

/-- The method `el.setAttribute(k, v)`. -/
def setAttribute (el : Elem) (k v : String) : Elem :=
  { el with attrs := (k, v) :: withoutAttr k el.attrs }

/-- The method `el.removeAttribute(k)`. -/
def removeAttribute (el : Elem) (k : String) : Elem :=
  { el with attrs := withoutAttr k el.attrs }

/-- Replace the element at a position of the document. -/
def updateAt (f : Elem → Elem) : Nat → List Elem → List Elem
  | _, [] => []
  | 0, el :: rest => f el :: rest
  | i + 1, el :: rest => el :: updateAt f i rest

/-- Source: the body of `hideEl` on an element that passed its two guards. -/
def markHidden (el : Elem) : Elem :=
  let prev := el.display
  let el1 := setAttribute el PREV_DISPLAY_ATTR prev
  let el2 := { el1 with display := "none" }
  setAttribute el2 OBSERVER_ATTR "1"

/-- Source: `hideEl(el)`, `el` being a position of the document (a position
outside the document stands for no element). -/
def hideEl (doc : List Elem) (el : Nat) : List Elem :=
  updateAt (fun e => if getAttribute e OBSERVER_ATTR = some "1" then e else markHidden e) el doc

/-- Source: the callback of `restoreHiddenEls` on one element.  The recorded
value was read from `style.display`, so the setter takes it back as it is. -/
def restoreEl (el : Elem) : Elem :=
  let prev := getAttribute el PREV_DISPLAY_ATTR
  let el1 := { el with display := match prev with
                                    | some p => if p = "" then "" else p
                                    | none => "" }
  removeAttribute (removeAttribute el1 OBSERVER_ATTR) PREV_DISPLAY_ATTR

/-- Source: `restoreHiddenEls()`: the callback runs on the elements that the
selector `[data-study-hidden="1"]` selects. -/
def restoreHiddenEls (doc : List Elem) : List Elem :=
  doc.map fun el => if getAttribute el OBSERVER_ATTR = some "1" then restoreEl el else el

/-- The method `s.includes(t)`. -/
def includes (s t : String) : Bool :=
  decide (t.data <:+: s.data)

/-- Source: the test of `bestContainer` on a parent element `p`. -/
def containmentSignal (E : Engine) (p : Elem) : Bool :=
  let tag := E.toLowerCase p.tagName
  let role := E.toLowerCase ((getAttribute p "role").getD "")
  let cls := E.toLowerCase p.className
  includes role "banner" || includes cls "ad" || includes cls "sponsor" || tag == "aside"

/-- The parent element of the element at a position, when it has one. -/
def parentOf (doc : List Elem) (cur : Nat) : Option (Nat × Elem) :=
  match doc[cur]? with
  | none => none
  | some el =>
    match el.parentElement with
    | none => none
    | some p => (doc[p]?).map fun pe => (p, pe)

/-- Source: the loop of `bestContainer`, with the number of rounds left. -/
def bestContainerLoop (E : Engine) (doc : List Elem) : Nat → Nat → Nat
  | 0, cur => cur
  | n + 1, cur =>
    match parentOf doc cur with
    | none => cur
    | some (p, pe) => if containmentSignal E pe then p else bestContainerLoop E doc n p

/-- Source: `bestContainer(el)`. -/
def bestContainer (E : Engine) (doc : List Elem) (el : Nat) : Nat :=
  bestContainerLoop E doc 3 el

/-- The method `document.querySelectorAll(sel)`: the positions selected. -/
def querySelectorAll (E : Engine) (doc : List Elem) (sel : String) : List Nat :=
  (List.range doc.length).filter fun i => E.selects sel doc i

/-- Source: `document.querySelectorAll(sel).forEach((el) =>
hideEl(bestContainer(el)))`. -/
def hideMatches (E : Engine) (doc : List Elem) (sel : String) : List Elem :=
  (querySelectorAll E doc sel).foldl (fun d el => hideEl d (bestContainer E d el)) doc

/-- Source: `applyDynamicHides(effective)`. -/
def applyDynamicHides (E : Engine) (effective : Props) (doc : List Elem) : List Elem :=
  if !truthy (field effective "enabled") then doc
  else
    let doc1 :=
      if truthy (field effective "hideAds") then AD_DYNAMIC_SELECTORS.foldl (hideMatches E) doc
      else doc
    if truthy (field effective "hideComments") then
      COMMENT_DYNAMIC_SELECTORS.foldl (hideMatches E) doc1
    else doc1

/-! ## The page controller -/

/-- The state of a page: its elements, the text of the element of id `STYLE_ID`
when the document has one, whether `observer` is set, and `currentEffective`
(`none` is `null`).  The style element is kept apart from `els`: the page is
taken not to use the id `STYLE_ID` itself, and the style element, which carries
only `id` and `type`, is matched by none of the dynamic selectors. -/
structure Page where
  els : List Elem
  styleEl : Option String
  observer : Bool
  currentEffective : Option Props

/-- Source: `removeStyleEl()`. -/
def removeStyleEl (pg : Page) : Page :=
  { pg with styleEl := none }

/-- Source: `ensureStyleEl()` followed by `styleEl.textContent = css`. -/
def setStyleText (pg : Page) (css : String) : Page :=
  let pg1 := if pg.styleEl.isSome then pg else { pg with styleEl := some "" }
  { pg1 with styleEl := some css }

/-- Source: `startObserver()`. -/
def startObserver (pg : Page) : Page :=
  if pg.observer then pg else { pg with observer := true }

/-- Source: `stopObserver()`. -/
def stopObserver (pg : Page) : Page :=
  if !pg.observer then pg else { pg with observer := false }

/-- Source: the part of `applyFromStorage()` that follows the computation of
`effective`. -/
def applyEffective (E : Engine) (effective : Props) (pg : Page) : Page :=
  let pg1 := { pg with currentEffective := some effective }
  if !truthy (field effective "enabled") then
    let pg2 := stopObserver (removeStyleEl pg1)
    { pg2 with els := restoreHiddenEls pg2.els }
  else
    match buildCss E effective with
    | none => pg1
    | some css =>
      let pg2 := setStyleText pg1 css
      startObserver { pg2 with els := applyDynamicHides E effective pg2.els }

/-- Source: `applyFromStorage()` on the page of host name `host`, given the
content of the storage area; what `getAllSettings` writes back to the storage
area is the second component of its result.  When `getAllSettings` or
`computeEffective` throws, the page is left as it is. -/
def applyFromStorage (E : Engine) (host : String) (stored : Val) (pg : Page) : Page :=
  match getAllSettings E stored with
  | none => pg
  | some (settings, _) =>
    match computeEffective E settings host with
    | none => pg
    | some r => applyEffective E r.effective pg

/-! ## The throttle and the observer -/

/-- The variables `last` and `timer` of a closure returned by `throttle`: the
time of the last run, and the due time of the timeout that is pending (`none`
is `null`). Times are those of `Date.now()`, in milliseconds. -/
structure Throttle where
  last : Int
  timer : Option Int

/-- Source: `let last = 0; let timer = null;` in `throttle`. -/
def Throttle.init : Throttle :=
  { last := 0, timer := none }

/-- Source: the function returned by `throttle(fn, waitMs)`, called when
`Date.now()` is `now`; `fn` acts on a state `s` (the call passes no argument
that matters to it). The timeout is set for `now + remaining`. -/
def throttled {σ : Type} (waitMs : Int) (fn : σ → σ) (now : Int) (th : Throttle) (s : σ) :
    Throttle × σ :=
  let remaining := waitMs - (now - th.last)
  if remaining ≤ 0 then ({ th with last := now }, fn s)
  else if th.timer.isNone then ({ th with timer := some (now + remaining) }, s)
  else (th, s)

/-- Source: the callback that `throttle` gives to `setTimeout`, run when
`Date.now()` is `now`. -/
def timeoutCallback {σ : Type} (fn : σ → σ) (now : Int) (_th : Throttle) (s : σ) :
    Throttle × σ :=
  ({ last := now, timer := none }, fn s)

/-- A closure of `throttle` under an explicit clock, with the times at which
`fn` ran, in order. -/
structure Clocked where
  th : Throttle
  runs : List Int

/-- The timer fires at its due time: when the clock reaches `t`, a timeout due
by then has run, at its due time. -/
def fireDue (c : Clocked) (t : Int) : Clocked :=
  match c.th.timer with
  | none => c
  | some due =>
    if due ≤ t then
      let r := timeoutCallback (fun runs => runs ++ [due]) due c.th c.runs
      { th := r.1, runs := r.2 }
    else c

/-- A call of the throttled function at time `t`, `fn` recording the time. -/
def callAt (waitMs : Int) (c : Clocked) (t : Int) : Clocked :=
  let c1 := fireDue c t
  let r := throttled waitMs (fun runs => runs ++ [t]) t c1.th c1.runs
  { th := r.1, runs := r.2 }

/-- Calls of the throttled function at the times of a list, one after the
other. -/
def callsAt (waitMs : Int) (c : Clocked) (ts : List Int) : Clocked :=
  ts.foldl (callAt waitMs) c

/-- Source: `currentEffective?.enabled`, as a condition. -/
def effectiveEnabled (pg : Page) : Bool :=
  match pg.currentEffective with
  | none => false
  | some e => truthy (field e "enabled")

/-- Source: the function that `startObserver` gives to `throttle`:
`if (currentEffective?.enabled) applyDynamicHides(currentEffective)`. -/
def tickBody (E : Engine) (pg : Page) : Page :=
  match pg.currentEffective with
  | none => pg
  | some e =>
    if truthy (field e "enabled") then { pg with els := applyDynamicHides E e pg.els } else pg

/-- The content script on a page: the page, the closure `tick` of the observer
made last, and the due times of the timeouts still pending in the closures of
earlier observers (a later `startObserver` makes a new closure, `stopObserver`
clears no timeout). -/
structure Script where
  page : Page
  tick : Throttle
  stale : List Int

/-- The content script before its first `applyFromStorage`. -/
def Script.start (els : List Elem) : Script :=
  { page := { els := els, styleEl := none, observer := false, currentEffective := none },
    tick := Throttle.init, stale := [] }

/-- What can happen on the page: `applyFromStorage` runs (at load, or on
`RELOAD_SETTINGS`) with some content of the storage area; the observer reports
a mutation; the timeout of the closure `tick` fires; the timeout of an earlier
closure fires; the page changes its own elements. -/
inductive Event where
  | reload (stored : Val)
  | mutation (now : Int)
  | timer (now : Int)
  | staleTimer (i : Nat) (now : Int)
  | domChange (els : List Elem)

/-- Source: `applyFromStorage()` with the closure that `startObserver` makes:
`startObserver` runs its body, and makes a new `tick`, exactly when `observer`
was `null` before the call and is set after it. -/
def Script.reload (E : Engine) (host : String) (stored : Val) (sc : Script) : Script :=
  let pg := applyFromStorage E host stored sc.page
  if !sc.page.observer && pg.observer then
    { page := pg, tick := Throttle.init,
      stale := match sc.tick.timer with
               | some due => due :: sc.stale
               | none => sc.stale }
  else { sc with page := pg }

/-- One event. The observer reports mutations only while it is connected
(`observer` set), the callback being `() => tick()` with `tick =
throttle(..., 250)`; a timeout fires only when it is pending. -/
def Script.step (E : Engine) (host : String) (sc : Script) : Event → Script
  | .reload stored => sc.reload E host stored
  | .mutation now =>
    if sc.page.observer then
      let r := throttled 250 (tickBody E) now sc.tick sc.page
      { sc with tick := r.1, page := r.2 }
    else sc
  | .timer now =>
    if sc.tick.timer.isSome then
      let r := timeoutCallback (tickBody E) now sc.tick sc.page
      { sc with tick := r.1, page := r.2 }
    else sc
  | .staleTimer i _ =>
    if i < sc.stale.length then { sc with stale := sc.stale.eraseIdx i, page := tickBody E sc.page }
    else sc
  | .domChange els => { sc with page := { sc.page with els := els } }

/-- The content script after a list of events. -/
def Script.run (E : Engine) (host : String) (sc : Script) (evs : List Event) : Script :=
  evs.foldl (Script.step E host) sc

/-! ## A reference engine

A small runtime on which the definitions can be evaluated: numbers print in
plain decimal notation, strings that are decimal integers convert to numbers,
arrays are read by index, and the dynamic selectors are matched on the element
alone. -/

/-- The digits of `r / den` after the decimal point, at most `fuel` of them. -/
def fractionDigits : Nat → Nat → Nat → String
  | 0, _, _ => ""
  | fuel + 1, r, den =>
    if r = 0 then "" else toString (r * 10 / den) ++ fractionDigits fuel (r * 10 % den) den

/-- A number in plain decimal notation. -/
def decimalString : JSNum → String
  | .nan => "NaN"
  | .posInf => "Infinity"
  | .negInf => "\x2dInfinity"
  | .fin q =>
    let n := q.num.natAbs
    let whole := (if q.num < 0 then "\x2d" else "") ++ toString (n / q.den)
    if n % q.den = 0 then whole else whole ++ "." ++ fractionDigits 20 (n % q.den) q.den

mutual
/-- A serialisation of a value in the manner of `JSON.stringify` (strings are
not escaped). -/
def serialize : Val → Option String
  | .undefined => none
  | .null => some "null"
  | .bool b => some (if b then "true" else "false")
  | .num (.fin q) => some (decimalString (.fin q))
  | .num _ => some "null"
  | .str s => some ("\"" ++ s ++ "\"")
  | .arr xs => some ("[" ++ String.intercalate "," (serializeItems xs) ++ "]")
  | .obj ps => some ("\x7b" ++ String.intercalate "," (serializeProps ps) ++ "\x7d")
/-- The members of an array, serialised. -/
def serializeItems : List Val → List String
  | [] => []
  | x :: rest => (serialize x).getD "null" :: serializeItems rest
/-- The properties of a record, serialised; a property without a serialisation
is left out. -/
def serializeProps : List (String × Val) → List String
  | [] => []
  | (k, v) :: rest =>
    match serialize v with
    | none => serializeProps rest
    | some t => ("\"" ++ k ++ "\":" ++ t) :: serializeProps rest
end

/-- A string with its ASCII capitals in lower case. -/
def lowerAscii (s : String) : String :=
  ⟨s.data.map Char.toLower⟩

/-- The attribute of an element contains a word, letter case apart. -/
def attrContains (el : Elem) (k word : String) : Bool :=
  match getAttribute el k with
  | none => false
  | some v => includes (lowerAscii v) word

/-- The dynamic selectors of the source, matched on one element. -/
def refSelects (sel : String) (el : Elem) : Bool :=
  if sel = "[aria\x2dlabel*=\"sponsored\" i]" then attrContains el "aria\x2dlabel" "sponsored"
  else if sel = "[aria\x2dlabel*=\"promoted\" i]" then attrContains el "aria\x2dlabel" "promoted"
  else if sel = "[data\x2dad]" then (getAttribute el "data\x2dad").isSome
  else if sel = "[data\x2dads]" then (getAttribute el "data\x2dads").isSome
  else if sel = "[data\x2dad\x2dslot]" then (getAttribute el "data\x2dad\x2dslot").isSome
  else if sel = "[data\x2dadunit]" then (getAttribute el "data\x2dadunit").isSome
  else if sel = "a[href*=\"doubleclick\" i]" then
    lowerAscii el.tagName == "a" && attrContains el "href" "doubleclick"
  else if sel = "iframe[src*=\"doubleclick\" i]" then
    lowerAscii el.tagName == "iframe" && attrContains el "src" "doubleclick"
  else if sel = "#comments" then getAttribute el "id" == some "comments"
  else if sel = "#disqus_thread" then getAttribute el "id" == some "disqus_thread"
  else if sel = "[data\x2dtestid*=\"comment\" i]" then attrContains el "data\x2dtestid" "comment"
  else if sel = "[data\x2dtest*=\"comment\" i]" then attrContains el "data\x2dtest" "comment"
  else false

/-- The reference engine. -/
def refEngine : Engine where
  stringToNumber := fun s =>
    if s = "" then .fin 0
    else match s.toNat? with
      | some n => .fin n
      | none => .nan
  numberToString := decimalString
  exoticGet := fun r k =>
    match r with
    | .val (.arr xs) =>
      match k.toNat? with
      | some i => .val (xs.getD i .undefined)
      | none => .val .undefined
    | _ => .val .undefined
  jsonStringify := serialize
  toLowerCase := lowerAscii
  selects := fun sel doc i =>
    match doc[i]? with
    | none => false
    | some el => refSelects sel el

/-! ## Statements of the specification -/

/-- The value the specification gives a field of the merged configuration: that
of the override when the override has the field, that of the global record when
it has not. -/
def overrideOr (o g : Props) (k : String) : Val :=
  match getOwn k o with
  | some v => v
  | none => field g k

/-- Does the element at a position show a containment signal? -/
def signalAt (E : Engine) (doc : List Elem) (a : Nat) : Bool :=
  match doc[a]? with
  | none => false
  | some pe => containmentSignal E pe

/-- The ancestors of an element, nearest first, at most `n` of them. -/
def ancestors (doc : List Elem) : Nat → Nat → List Nat
  | 0, _ => []
  | n + 1, el =>
    match parentOf doc el with
    | none => []
    | some (p, _) => p :: ancestors doc n p

/-- The container the specification describes: the nearest ancestor within 3
steps that shows a containment signal when there is one, otherwise the node
reached after 3 steps up, or the topmost ancestor when there are fewer than 3
(the element itself when it has no parent). -/
def specContainer (E : Engine) (doc : List Elem) (el : Nat) : Nat :=
  match (ancestors doc 3 el).find? (signalAt E doc) with
  | some a => a
  | none => ((ancestors doc 3 el).getLast?).getD el

/-- The elements of a page `<html><body><aside><div data-ad style="display:
block">`: the `div` is matched by `[data-ad]` and `bestContainer` widens the
match to the `aside`. -/
def adPageEls : List Elem :=
  [{ tagName := "HTML", parentElement := none, className := "", attrs := [], display := "" },
   { tagName := "BODY", parentElement := some 0, className := "", attrs := [], display := "" },
   { tagName := "ASIDE", parentElement := some 1, className := "", attrs := [],
     display := "block" },
   { tagName := "DIV", parentElement := some 2, className := "", attrs := [("data\x2dad", "")],
     display := "block" }]

/-- The elements of a page `<html><body><div data-ad>`: the match is a child of
`body` and nothing shows a containment signal. -/
def plainPageEls : List Elem :=
  [{ tagName := "HTML", parentElement := none, className := "", attrs := [], display := "" },
   { tagName := "BODY", parentElement := some 0, className := "", attrs := [], display := "" },
   { tagName := "DIV", parentElement := some 1, className := "", attrs := [("data\x2dad", "")],
     display := "" }]

/-- That page before the content script has run. -/
def adPage : Page :=
  { els := adPageEls, styleEl := none, observer := false, currentEffective := none }

/-! ## Records: reading after writing -/

theorem getOwn_cons (k k' : String) (v : Val) (rest : Props) :
    getOwn k ((k', v) :: rest) =
      match getOwn k rest with
      | some x => some x
      | none => if k' = k then some v else none := rfl

theorem rebind_cons (k k' : String) (v v' : Val) (rest : Props) :
    rebind k v ((k', v') :: rest) = (k', if k' = k then v else v') :: rebind k v rest := rfl

theorem getOwn_append_single (k k' : String) (v : Val) (ps : Props) :
    getOwn k (ps ++ [(k', v)]) = if k' = k then some v else getOwn k ps := by
  induction ps with
  | nil => simp [getOwn]
  | cons e rest ih =>
    obtain ⟨k1, v1⟩ := e
    rw [List.cons_append, getOwn_cons, getOwn_cons, ih]
    by_cases hk : k' = k
    · simp [hk]
    · simp [hk]

theorem getOwn_rebind_same (k : String) (v : Val) (ps : Props) :
    getOwn k (rebind k v ps) = if (getOwn k ps).isSome then some v else none := by
  induction ps with
  | nil => simp [rebind, getOwn]
  | cons e rest ih =>
    obtain ⟨k1, v1⟩ := e
    rw [rebind_cons, getOwn_cons, getOwn_cons, ih]
    by_cases h1 : k1 = k
    · cases getOwn k rest <;> simp [h1]
    · cases getOwn k rest <;> simp [h1]

theorem getOwn_rebind_other (k k' : String) (v : Val) (ps : Props) (hk : k' ≠ k) :
    getOwn k (rebind k' v ps) = getOwn k ps := by
  induction ps with
  | nil => simp [rebind, getOwn]
  | cons e rest ih =>
    obtain ⟨k1, v1⟩ := e
    rw [rebind_cons, getOwn_cons, getOwn_cons, ih]
    by_cases h1 : k1 = k
    · subst h1
      have h2 : ¬ k1 = k' := fun h => hk h.symm
      simp [h2]
    · simp [h1]

theorem getOwn_define (k k' : String) (v : Val) (ps : Props) :
    getOwn k (define ps k' v) = if k' = k then some v else getOwn k ps := by
  unfold define
  by_cases h : (getOwn k' ps).isSome = true
  · rw [if_pos h]
    by_cases hk : k' = k
    · subst hk; rw [getOwn_rebind_same, if_pos h, if_pos rfl]
    · rw [getOwn_rebind_other _ _ _ _ hk, if_neg hk]
  · rw [if_neg h, getOwn_append_single]

theorem getOwn_assign (k k' : String) (v : Val) (ps : Props)
    (h : k' ≠ "__proto__" ∨ (getOwn k' ps).isSome = true) :
    getOwn k (assign ps k' v) = if k' = k then some v else getOwn k ps := by
  unfold assign
  by_cases h1 : (getOwn k' ps).isSome = true
  · rw [if_pos h1]
    by_cases hk : k' = k
    · subst hk; rw [getOwn_rebind_same, if_pos h1, if_pos rfl]
    · rw [getOwn_rebind_other _ _ _ _ hk, if_neg hk]
  · have hp : k' ≠ "__proto__" := by
      rcases h with h | h
      · exact h
      · exact absurd h h1
    rw [if_neg h1, if_neg hp, getOwn_append_single]

theorem getOwn_spreadInto (k : String) (src out : Props) :
    getOwn k (spreadInto out src) =
      match getOwn k src with
      | some x => some x
      | none => getOwn k out := by
  induction src generalizing out with
  | nil => simp [spreadInto, getOwn]
  | cons e rest ih =>
    obtain ⟨k', v⟩ := e
    have hstep : spreadInto out ((k', v) :: rest) = spreadInto (define out k' v) rest := rfl
    rw [hstep, ih, getOwn_define, getOwn_cons]
    cases getOwn k rest <;> by_cases hk : k' = k <;> simp [hk]

theorem field_assign (k k' : String) (v : Val) (ps : Props)
    (h : k' ≠ "__proto__" ∨ (getOwn k' ps).isSome = true) :
    field (assign ps k' v) k = if k' = k then v else field ps k := by
  unfold field
  rw [getOwn_assign k k' v ps h]
  by_cases hk : k' = k <;> simp [hk]

/-! ## Resolution of the effective configuration -/

/-- The six fields of a configuration that `computeEffective` sanitizes. -/
theorem computeEffective_fields (E : Engine) (settings : Val) (host : String) (sat con : JSNum)
    (hsat : clamp E (field (mergedConfig E settings host) "saturation")
      (.fin (mkRat 3 10)) (.fin (mkRat 13 10)) = some sat)
    (hcon : clamp E (field (mergedConfig E settings host) "contrast")
      (.fin (mkRat 8 10)) (.fin (mkRat 14 10)) = some con) :
    ∃ r, computeEffective E settings host = some r ∧
      r.hasSiteOverride = (siteOf E settings host).truthy ∧
      field r.effective "enabled" = .bool (truthy (field (mergedConfig E settings host) "enabled")) ∧
      field r.effective "hideAds" = .bool (truthy (field (mergedConfig E settings host) "hideAds")) ∧
      field r.effective "hideComments" =
        .bool (truthy (field (mergedConfig E settings host) "hideComments")) ∧
      field r.effective "themeEnabled" =
        .bool (truthy (field (mergedConfig E settings host) "themeEnabled")) ∧
      field r.effective "saturation" = .num sat ∧
      field r.effective "contrast" = .num con := by
  have np : ∀ k : String, k ≠ "__proto__" → ∀ (ps : Props),
      k ≠ "__proto__" ∨ (getOwn k ps).isSome = true := fun _ h _ => Or.inl h
  unfold computeEffective
  simp [hsat, hcon, field_assign _ _ _ _ (np "enabled" (by decide) _),
    field_assign _ _ _ _ (np "hideAds" (by decide) _),
    field_assign _ _ _ _ (np "hideComments" (by decide) _),
    field_assign _ _ _ _ (np "themeEnabled" (by decide) _),
    field_assign _ _ _ _ (np "saturation" (by decide) _),
    field_assign _ _ _ _ (np "contrast" (by decide) _)]

theorem computeEffective_some (E : Engine) (settings : Val) (host : String) (r : Resolved)
    (h : computeEffective E settings host = some r) :
    ∃ sat con,
      clamp E (field (mergedConfig E settings host) "saturation")
        (.fin (mkRat 3 10)) (.fin (mkRat 13 10)) = some sat ∧
      clamp E (field (mergedConfig E settings host) "contrast")
        (.fin (mkRat 8 10)) (.fin (mkRat 14 10)) = some con := by
  have np : ∀ k : String, k ≠ "__proto__" → ∀ (ps : Props),
      k ≠ "__proto__" ∨ (getOwn k ps).isSome = true := fun _ h _ => Or.inl h
  unfold computeEffective at h
  simp only [field_assign _ _ _ _ (np "enabled" (by decide) _),
    field_assign _ _ _ _ (np "hideAds" (by decide) _),
    field_assign _ _ _ _ (np "hideComments" (by decide) _),
    field_assign _ _ _ _ (np "themeEnabled" (by decide) _),
    field_assign _ _ _ _ (np "saturation" (by decide) _)] at h
  simp only [show ("enabled" = "saturation") = False from by decide,
    show ("hideAds" = "saturation") = False from by decide,
    show ("hideComments" = "saturation") = False from by decide,
    show ("themeEnabled" = "saturation") = False from by decide,
    show ("enabled" = "contrast") = False from by decide,
    show ("hideAds" = "contrast") = False from by decide,
    show ("hideComments" = "contrast") = False from by decide,
    show ("themeEnabled" = "contrast") = False from by decide,
    show ("saturation" = "contrast") = False from by decide, if_false] at h
  cases hs : clamp E (field (mergedConfig E settings host) "saturation")
      (.fin (mkRat 3 10)) (.fin (mkRat 13 10)) with
  | none => rw [hs] at h; simp at h
  | some sat =>
    cases hc : clamp E (field (mergedConfig E settings host) "contrast")
        (.fin (mkRat 8 10)) (.fin (mkRat 14 10)) with
    | none => rw [hs] at h; simp only [] at h; rw [hc] at h; simp at h
    | some con => exact ⟨sat, con, rfl, rfl⟩

theorem clamp_within (E : Engine) (n : Val) (lo hi : ℚ) (x : JSNum) (hle : lo ≤ hi)
    (h : clamp E n (.fin lo) (.fin hi) = some x) : x.within lo hi := by
  unfold clamp at h
  cases hn : toNumber E n with
  | none => rw [hn] at h; simp at h
  | some y =>
    rw [hn] at h
    cases y with
    | nan =>
      simp [JSNum.isNaN] at h
      subst h
      exact ⟨le_refl _, hle⟩
    | negInf =>
      simp [JSNum.isNaN, JSNum.mathMax, JSNum.mathMin, JSNum.lt] at h
      subst h
      by_cases hlt : lo < hi
      · simp [hlt, JSNum.within, hle]
      · have : lo = hi := le_antisymm hle (not_lt.mp hlt)
        simp [hlt, JSNum.within, this]
    | posInf =>
      simp [JSNum.isNaN, JSNum.mathMax, JSNum.mathMin, JSNum.lt] at h
      subst h
      exact ⟨hle, le_refl _⟩
    | fin q =>
      simp [JSNum.isNaN, JSNum.mathMax, JSNum.mathMin, JSNum.lt] at h
      subst h
      by_cases h1 : lo < q
      · by_cases h2 : q < hi
        · simp [h1, h2, JSNum.within, JSNum.isNaN, JSNum.lt, le_of_lt h1, le_of_lt h2]
        · simp [h1, h2, JSNum.within, JSNum.isNaN, JSNum.lt, hle]
      · by_cases h2 : lo < hi
        · simp [h1, h2, JSNum.within, JSNum.isNaN, JSNum.lt, hle]
        · simp [h1, h2, JSNum.within, JSNum.isNaN, JSNum.lt, hle]

theorem clamp_num (E : Engine) (a lo hi : JSNum) :
    clamp E (.num a) lo hi =
      some (if a.isNaN then lo else JSNum.mathMin hi (JSNum.mathMax lo a)) := by
  unfold clamp toNumber
  by_cases h : a.isNaN = true <;> simp [h]

theorem mergedConfig_record (E : Engine) (ps g ss o : Props) (host k : String)
    (hg : getOwn "global" ps = some (.obj g))
    (hs : getOwn "sites" ps = some (.obj ss))
    (ho : getOwn host ss = some (.obj o)) :
    field (mergedConfig E (.obj ps) host) k = overrideOr o g k ∧
      siteOf E (.obj ps) host = .val (.obj o) := by
  have hsite : siteOf E (.obj ps) host = .val (.obj o) := by
    simp [siteOf, Val.optGet, Val.get, Ref.optGet, hs, ho]
  have hglob : globalOf E (.obj ps) = .val (.obj g) := by
    simp [globalOf, Val.optGet, Val.get, hg, Ref.truthy, truthy]
  refine ⟨?_, hsite⟩
  unfold mergedConfig
  simp only [hsite, hglob, Ref.truthy, truthy, if_true, Ref.ownEntries, ownEntries]
  unfold overrideOr field
  rw [getOwn_spreadInto, getOwn_spreadInto]
  cases getOwn k o <;> cases getOwn k g <;> simp [getOwn]

/-- C1. For settings whose `global` is a record `g` and whose `sites[host]` is a
record `o`, every one of the six fields of the effective configuration is the
sanitized value of the override when the override has the field and of the
global record when it has not (`Boolean` for the four flags, `clamp` for the two
numbers), and `hasSiteOverride` is true. -/
theorem computeEffective_override_precedence (E : Engine) (ps g ss o : Props) (host : String)
    (sat con : JSNum)
    (hg : getOwn "global" ps = some (.obj g))
    (hs : getOwn "sites" ps = some (.obj ss))
    (ho : getOwn host ss = some (.obj o))
    (hsat : clamp E (overrideOr o g "saturation") (.fin (mkRat 3 10)) (.fin (mkRat 13 10))
      = some sat)
    (hcon : clamp E (overrideOr o g "contrast") (.fin (mkRat 8 10)) (.fin (mkRat 14 10))
      = some con) :
    ∃ r, computeEffective E (.obj ps) host = some r ∧
      r.hasSiteOverride = true ∧
      field r.effective "enabled" = .bool (truthy (overrideOr o g "enabled")) ∧
      field r.effective "hideAds" = .bool (truthy (overrideOr o g "hideAds")) ∧
      field r.effective "hideComments" = .bool (truthy (overrideOr o g "hideComments")) ∧
      field r.effective "themeEnabled" = .bool (truthy (overrideOr o g "themeEnabled")) ∧
      field r.effective "saturation" = .num sat ∧
      field r.effective "contrast" = .num con := by
  have hm := fun k => (mergedConfig_record E ps g ss o host k hg hs ho).1
  have hsite := (mergedConfig_record E ps g ss o host "enabled" hg hs ho).2
  rw [← hm "saturation"] at hsat
  rw [← hm "contrast"] at hcon
  obtain ⟨r, hr, h0, h1, h2, h3, h4, h5, h6⟩ :=
    computeEffective_fields E (.obj ps) host sat con hsat hcon
  refine ⟨r, hr, ?_, ?_, ?_, ?_, ?_, h5, h6⟩
  · rw [h0, hsite]; rfl
  · rw [h1, hm]
  · rw [h2, hm]
  · rw [h3, hm]
  · rw [h4, hm]

/-- C1, witness: the default global record with the override
`{hideComments: true}` for `example.com` resolves to `hideComments` true and
every other field as in the global record. -/
theorem computeEffective_override_precedence_witness :
    ∃ r, computeEffective refEngine
        (.obj [("global", DEFAULTS_global),
               ("sites", .obj [("example.com", .obj [("hideComments", .bool true)])])])
        "example.com" = some r ∧
      r.hasSiteOverride = true ∧
      field r.effective "enabled" = .bool true ∧
      field r.effective "hideAds" = .bool true ∧
      field r.effective "hideComments" = .bool true ∧
      field r.effective "themeEnabled" = .bool true ∧
      field r.effective "saturation" = .num (.fin (mkRat 85 100)) ∧
      field r.effective "contrast" = .num (.fin (mkRat 108 100)) :=
  computeEffective_override_precedence refEngine
    [("global", DEFAULTS_global),
     ("sites", .obj [("example.com", .obj [("hideComments", .bool true)])])]
    [("enabled", .bool true), ("hideAds", .bool true), ("hideComments", .bool false),
     ("themeEnabled", .bool true), ("saturation", .num (.fin (mkRat 85 100))),
     ("contrast", .num (.fin (mkRat 108 100)))]
    [("example.com", .obj [("hideComments", .bool true)])]
    [("hideComments", .bool true)] "example.com"
    (.fin (mkRat 85 100)) (.fin (mkRat 108 100)) rfl rfl rfl rfl rfl

/-- C2. Whatever the settings and the host, a result of `computeEffective` has
its `saturation` in [0.3, 1.3] and its `contrast` in [0.8, 1.4]; and when the
merged `saturation` and `contrast` (from the global record or from the site
override) are numbers, of any kind, `computeEffective` returns such a result, in
which a `NaN` has become the lower bound, 0.3 respectively 0.8. -/
theorem computeEffective_clamps (E : Engine) (settings : Val) (host : String) :
    (∀ r, computeEffective E settings host = some r →
      ∃ s c, field r.effective "saturation" = .num s ∧ s.within (mkRat 3 10) (mkRat 13 10) ∧
        field r.effective "contrast" = .num c ∧ c.within (mkRat 8 10) (mkRat 14 10)) ∧
    (∀ a b, field (mergedConfig E settings host) "saturation" = .num a →
      field (mergedConfig E settings host) "contrast" = .num b →
      ∃ r s c, computeEffective E settings host = some r ∧
        field r.effective "saturation" = .num s ∧ s.within (mkRat 3 10) (mkRat 13 10) ∧
        field r.effective "contrast" = .num c ∧ c.within (mkRat 8 10) (mkRat 14 10) ∧
        (a = .nan → s = .fin (mkRat 3 10)) ∧ (b = .nan → c = .fin (mkRat 8 10))) := by
  constructor
  · intro r hr
    obtain ⟨sat, con, hsat, hcon⟩ := computeEffective_some E settings host r hr
    obtain ⟨r1, hr1, _, _, _, _, _, h5, h6⟩ :=
      computeEffective_fields E settings host sat con hsat hcon
    have : r1 = r := Option.some.inj (hr1.symm.trans hr)
    subst this
    exact ⟨sat, con, h5, clamp_within E _ _ _ _ (by decide) hsat, h6,
      clamp_within E _ _ _ _ (by decide) hcon⟩
  · intro a b ha hb
    have hsat := clamp_num E a (.fin (mkRat 3 10)) (.fin (mkRat 13 10))
    have hcon := clamp_num E b (.fin (mkRat 8 10)) (.fin (mkRat 14 10))
    rw [← ha] at hsat
    rw [← hb] at hcon
    obtain ⟨r, hr, _, _, _, _, _, h5, h6⟩ :=
      computeEffective_fields E settings host _ _ hsat hcon
    refine ⟨r, _, _, hr, h5, clamp_within E _ _ _ _ (by decide) hsat, h6,
      clamp_within E _ _ _ _ (by decide) hcon, ?_, ?_⟩
    · intro h; subst h; rfl
    · intro h; subst h; rfl

/-- C2, witness: a global `saturation` of `NaN` and a site `contrast` of
`+Infinity` resolve to 0.3 and to a contrast within [0.8, 1.4]. -/
theorem computeEffective_clamps_witness :
    (∃ s c, field
        [("saturation", .num (.fin (mkRat 3 10))), ("contrast", .num (.fin (mkRat 14 10))),
         ("enabled", .bool false), ("hideAds", .bool false), ("hideComments", .bool false),
         ("themeEnabled", .bool false)] "saturation" = Val.num s ∧
        s.within (mkRat 3 10) (mkRat 13 10) ∧
        field
        [("saturation", .num (.fin (mkRat 3 10))), ("contrast", .num (.fin (mkRat 14 10))),
         ("enabled", .bool false), ("hideAds", .bool false), ("hideComments", .bool false),
         ("themeEnabled", .bool false)] "contrast" = Val.num c ∧
        c.within (mkRat 8 10) (mkRat 14 10)) ∧
    (∃ r s c, computeEffective refEngine
        (.obj [("global", .obj [("saturation", .num .nan)]),
               ("sites", .obj [("x.com", .obj [("contrast", .num .posInf)])])]) "x.com" = some r ∧
      field r.effective "saturation" = .num s ∧ s.within (mkRat 3 10) (mkRat 13 10) ∧
      field r.effective "contrast" = .num c ∧ c.within (mkRat 8 10) (mkRat 14 10) ∧
      (JSNum.nan = .nan → s = .fin (mkRat 3 10)) ∧ (JSNum.posInf = .nan → c = .fin (mkRat 8 10))) :=
  ⟨(computeEffective_clamps refEngine
      (.obj [("global", .obj [("saturation", .num .nan)]),
             ("sites", .obj [("x.com", .obj [("contrast", .num .posInf)])])]) "x.com").1
      _ rfl,
   (computeEffective_clamps refEngine
      (.obj [("global", .obj [("saturation", .num .nan)]),
             ("sites", .obj [("x.com", .obj [("contrast", .num .posInf)])])]) "x.com").2
      .nan .posInf rfl rfl⟩

/-- C3, as stated, fails twice.  With `sites = {"x.com": null}` the host `x.com`
is a key of `sites` and `hasSiteOverride` is false; with `sites = {}` the host
`constructor` is not a key of `sites` and `hasSiteOverride` is true, the read
`sites["constructor"]` reaching the function inherited from `Object.prototype`. -/
theorem hasSiteOverride_not_key_presence :
    (∃ r, computeEffective refEngine (.obj [("sites", .obj [("x.com", .null)])]) "x.com"
        = some r ∧
      (getOwn "x.com" [("x.com", Val.null)]).isSome = true ∧ r.hasSiteOverride = false) ∧
    (∃ r, computeEffective refEngine (.obj [("sites", .obj [])]) "constructor" = some r ∧
      (getOwn "constructor" ([] : Props)).isSome = false ∧ r.hasSiteOverride = true) :=
  ⟨⟨_, rfl, rfl, rfl⟩, ⟨_, rfl, rfl, rfl⟩⟩

/-- C3, amended. For a settings record and a site identifier that names no
member of `Object.prototype`: when `settings.sites` is a record,
`hasSiteOverride` is true exactly when the identifier is a key of `sites` whose
value is truthy (every record is; `null`, `false`, `0` and `""` are not); when
the settings have no `sites`, it is false. -/
theorem hasSiteOverride_iff_truthy_entry (E : Engine) (ps : Props) (host : String)
    (r : Resolved) (hp : host ≠ "__proto__") (hn : host ∉ objectPrototypeNames)
    (hr : computeEffective E (.obj ps) host = some r) :
    (∀ ss, getOwn "sites" ps = some (.obj ss) →
      (r.hasSiteOverride = true ↔ ∃ v, getOwn host ss = some v ∧ truthy v = true)) ∧
    (getOwn "sites" ps = none → r.hasSiteOverride = false) := by
  have key : r.hasSiteOverride = (siteOf E (.obj ps) host).truthy := by
    obtain ⟨sat, con, hsat, hcon⟩ := computeEffective_some E _ host r hr
    obtain ⟨r1, hr1, h0, _⟩ := computeEffective_fields E _ host sat con hsat hcon
    have : r1 = r := Option.some.inj (hr1.symm.trans hr)
    subst this
    exact h0
  rw [key]
  constructor
  · intro ss hs
    cases hv : getOwn host ss with
    | none =>
      simp [siteOf, Val.optGet, Val.get, Ref.optGet, hs, hv, inheritedGet, hp, hn, Ref.truthy,
        truthy]
    | some v =>
      cases v <;>
        simp [siteOf, Val.optGet, Val.get, Ref.optGet, hs, hv, Ref.truthy, truthy]
  · intro hs
    have h1 : (Val.obj ps).optGet E "sites" = .val .undefined := by
      simp [Val.optGet, Val.get, hs, inheritedGet, objectPrototypeNames]
    unfold siteOf
    rw [h1]
    rfl

/-- C3, witness of the amended statement: the override `{}` stored for `x.com`
is a site override. -/
theorem hasSiteOverride_iff_truthy_entry_witness :
    ∃ r, computeEffective refEngine (.obj [("sites", .obj [("x.com", .obj [])])]) "x.com"
        = some r ∧ r.hasSiteOverride = true ∧
      (∀ ss, getOwn "sites" [("sites", Val.obj [("x.com", .obj [])])] = some (.obj ss) →
        (r.hasSiteOverride = true ↔ ∃ v, getOwn "x.com" ss = some v ∧ truthy v = true)) ∧
      (getOwn "sites" [("sites", Val.obj [("x.com", .obj [])])] = none →
        r.hasSiteOverride = false) :=
  ⟨_, rfl, rfl, hasSiteOverride_iff_truthy_entry refEngine
    [("sites", .obj [("x.com", .obj [])])] "x.com" _ (by decide) (by decide) rfl⟩

/-! ## Merging stored data into the defaults -/

theorem deepMergeEntries_nil (E : Engine) (base : Ref) (out : Props) :
    deepMergeEntries E base out [] = some out := by
  rw [deepMergeEntries]

theorem deepMergeEntries_cons (E : Engine) (base : Ref) (out : Props) (k : String) (v : Val)
    (rest : Props) :
    deepMergeEntries E base out ((k, v) :: rest) =
      match mergedValue E (base.optGet E k) v with
      | none => none
      | some m => deepMergeEntries E base (assign out k m) rest := by
  rw [deepMergeEntries]

theorem getOwn_assign_of_ne (k k' : String) (v : Val) (ps : Props) (hk : k' ≠ k) :
    getOwn k (assign ps k' v) = getOwn k ps := by
  unfold assign
  by_cases h1 : (getOwn k' ps).isSome = true
  · rw [if_pos h1, getOwn_rebind_other _ _ _ _ hk]
  · rw [if_neg h1]
    by_cases hp : k' = "__proto__"
    · rw [if_pos hp]
    · rw [if_neg hp, getOwn_append_single, if_neg hk]

/-- What the loop of `deepMerge` leaves under a key other than `__proto__`: the
merge of the last entry of the patch for that key, or what the copy held. -/
theorem deepMergeEntries_getOwn (E : Engine) (base : Ref) (es out res : Props) (k : String)
    (hk : k ≠ "__proto__") (h : deepMergeEntries E base out es = some res) :
    getOwn k res =
      match getOwn k es with
      | some v => mergedValue E (base.optGet E k) v
      | none => getOwn k out := by
  induction es generalizing out with
  | nil =>
    rw [deepMergeEntries_nil] at h
    cases h
    simp [getOwn]
  | cons e rest ih =>
    obtain ⟨k1, v1⟩ := e
    rw [deepMergeEntries_cons] at h
    cases hm : mergedValue E (base.optGet E k1) v1 with
    | none => rw [hm] at h; simp at h
    | some m =>
      rw [hm] at h
      simp only [] at h
      rw [ih _ h, getOwn_cons]
      cases hr : getOwn k rest with
      | some x => simp
      | none =>
        by_cases h1 : k1 = k
        · subst h1
          simp [getOwn_assign _ _ _ _ (Or.inl hk), hm]
        · simp [getOwn_assign_of_ne _ _ _ _ h1, h1]

theorem mergedValue_obj (E : Engine) (bk : Ref) (vs : Props) :
    mergedValue E bk (.obj vs) =
      if bk.truthy && bk.isObjectType then
        match bk with
        | .val (.arr _) => none
        | _ => (deepMergeEntries E bk bk.ownEntries vs).map .obj
      else some (.obj vs) := by
  conv_lhs => unfold mergedValue

theorem mergedValue_of_not_record (E : Engine) (bk : Ref) (v : Val)
    (h : ∀ vs, v ≠ .obj vs) : mergedValue E bk v = some v := by
  cases v with
  | obj vs => exact absurd rfl (h vs)
  | _ => simp [mergedValue]

theorem mergedValue_of_not_object (E : Engine) (bk : Ref) (v : Val)
    (h : (bk.truthy && bk.isObjectType) = false) : mergedValue E bk v = some v := by
  cases v with
  | obj vs => rw [mergedValue_obj, h]; rfl
  | _ => simp [mergedValue]

theorem prototype_member_not_object (E : Engine) (k : String) :
    ((Ref.objectPrototype.optGet E k).truthy &&
      (Ref.objectPrototype.optGet E k).isObjectType) = false := by
  unfold Ref.optGet
  by_cases h1 : k ∈ objectPrototypeNames
  · simp [h1, Ref.truthy, Ref.isObjectType]
  · by_cases h2 : k = "__proto__"
    · subst h2
      rfl
    · simp [h1, h2, Ref.truthy, Ref.isObjectType, truthy]

theorem deepMergeEntries_prototype (E : Engine) (es out : Props) :
    ∃ res, deepMergeEntries E .objectPrototype out es = some res := by
  induction es generalizing out with
  | nil => exact ⟨out, deepMergeEntries_nil _ _ _⟩
  | cons e rest ih =>
    obtain ⟨k, v⟩ := e
    rw [deepMergeEntries_cons,
      mergedValue_of_not_object E _ v (prototype_member_not_object E k)]
    exact ih _

/-- On a base record whose members are no objects, every entry of the patch is
merged, and under a key other than `__proto__` it is stored as it is. -/
theorem mergedValue_flat (E : Engine) (bs : Props) (k : String) (v : Val)
    (hflat : ∀ k x, getOwn k bs = some x →
      ((Ref.val x).truthy && (Ref.val x).isObjectType) = false) :
    ∃ m, mergedValue E ((Ref.val (.obj bs)).optGet E k) v = some m ∧
      (k ≠ "__proto__" → m = v) := by
  cases hb : getOwn k bs with
  | some x =>
    have hbk : (Ref.val (.obj bs)).optGet E k = .val x := by
      simp [Ref.optGet, Val.optGet, Val.get, hb]
    rw [hbk, mergedValue_of_not_object E _ v (hflat k x hb)]
    exact ⟨v, rfl, fun _ => rfl⟩
  | none =>
    have hbk : (Ref.val (.obj bs)).optGet E k = inheritedGet k := by
      simp [Ref.optGet, Val.optGet, Val.get, hb]
    rw [hbk]
    by_cases hp : k = "__proto__"
    · have hi : inheritedGet k = .objectPrototype := by simp [inheritedGet, hp]
      rw [hi]
      cases v with
      | obj vs =>
        obtain ⟨res, hres⟩ := deepMergeEntries_prototype E vs (Ref.objectPrototype).ownEntries
        rw [mergedValue_obj]
        simp only [Ref.truthy, Ref.isObjectType, Bool.and_self, if_true, hres, Option.map]
        exact ⟨_, rfl, fun h => absurd hp h⟩
      | _ =>
        rw [mergedValue_of_not_record E _ _ (by intro vs h; cases h)]
        exact ⟨_, rfl, fun _ => rfl⟩
    · have hno : ((inheritedGet k).truthy && (inheritedGet k).isObjectType) = false := by
        unfold inheritedGet
        by_cases h1 : k ∈ objectPrototypeNames
        · simp [hp, h1, Ref.truthy, Ref.isObjectType]
        · simp [hp, h1, Ref.truthy, Ref.isObjectType, truthy]
      rw [mergedValue_of_not_object E _ v hno]
      exact ⟨v, rfl, fun _ => rfl⟩

theorem deepMergeEntries_flat (E : Engine) (bs es out : Props)
    (hflat : ∀ k x, getOwn k bs = some x →
      ((Ref.val x).truthy && (Ref.val x).isObjectType) = false) :
    ∃ res, deepMergeEntries E (.val (.obj bs)) out es = some res ∧
      ∀ k, k ≠ "__proto__" →
        getOwn k res = match getOwn k es with
          | some v => some v
          | none => getOwn k out := by
  have total : ∀ (es out : Props), ∃ res, deepMergeEntries E (.val (.obj bs)) out es = some res := by
    intro es
    induction es with
    | nil => intro out; exact ⟨out, deepMergeEntries_nil _ _ _⟩
    | cons e rest ih =>
      intro out
      obtain ⟨k, v⟩ := e
      obtain ⟨m, hm, _⟩ := mergedValue_flat E bs k v hflat
      rw [deepMergeEntries_cons, hm]
      exact ih _
  obtain ⟨res, hres⟩ := total es out
  refine ⟨res, hres, ?_⟩
  intro k hk
  rw [deepMergeEntries_getOwn E _ es out res k hk hres]
  cases hv : getOwn k es with
  | none => rfl
  | some v =>
    obtain ⟨m, hm, hmv⟩ := mergedValue_flat E bs k v hflat
    simp only []
    rw [hm, hmv hk]

theorem DEFAULTS_global_flat (k : String) (x : Val)
    (h : getOwn k DEFAULTS_global_props = some x) :
    ((Ref.val x).truthy && (Ref.val x).isObjectType) = false := by
  have hall : ∀ e ∈ DEFAULTS_global_props,
      ((Ref.val e.2).truthy && (Ref.val e.2).isObjectType) = false := by
    intro e he
    simp only [DEFAULTS_global_props, List.mem_cons, List.mem_singleton, List.not_mem_nil,
      or_false] at he
    rcases he with h | h | h | h | h | h <;> subst h <;> rfl
  have hmem : ∀ (ps : Props), getOwn k ps = some x → (k, x) ∈ ps := by
    intro ps
    induction ps with
    | nil => intro h; simp [getOwn] at h
    | cons e rest ih =>
      obtain ⟨k1, v1⟩ := e
      intro h
      rw [getOwn_cons] at h
      cases hr : getOwn k rest with
      | some y =>
        rw [hr] at h
        simp only [Option.some.injEq] at h
        subst h
        exact List.mem_cons_of_mem _ (ih hr)
      | none =>
        rw [hr] at h
        by_cases hk : k1 = k
        · simp only [hk, if_true, Option.some.injEq] at h
          subst h; subst hk
          exact List.mem_cons_self _ _
        · simp [hk] at h
  exact hall _ (hmem _ h)

theorem empty_flat (k : String) (x : Val) (h : getOwn k ([] : Props) = some x) :
    ((Ref.val x).truthy && (Ref.val x).isObjectType) = false := by
  simp [getOwn] at h

/-- The loop of `deepMerge` on the base `DEFAULTS` merges every entry. -/
theorem mergedValue_DEFAULTS (E : Engine) (k : String) (v : Val) :
    ∃ m, mergedValue E ((Ref.val DEFAULTS).optGet E k) v = some m := by
  by_cases hg : k = "global"
  · subst hg
    have hbk : (Ref.val DEFAULTS).optGet E "global" = .val DEFAULTS_global := rfl
    rw [hbk]
    cases v with
    | obj vs =>
      obtain ⟨res, hres, _⟩ :=
        deepMergeEntries_flat E DEFAULTS_global_props vs DEFAULTS_global_props DEFAULTS_global_flat
      rw [mergedValue_obj]
      exact ⟨.obj res, by simp [DEFAULTS_global, Ref.truthy, Ref.isObjectType, truthy,
        Ref.ownEntries, ownEntries, hres]⟩
    | _ => exact ⟨_, mergedValue_of_not_record E _ _ (by intro vs h; cases h)⟩
  · by_cases hs : k = "sites"
    · subst hs
      have hbk : (Ref.val DEFAULTS).optGet E "sites" = .val (.obj []) := rfl
      rw [hbk]
      cases v with
      | obj vs =>
        obtain ⟨res, hres, _⟩ := deepMergeEntries_flat E [] vs [] empty_flat
        rw [mergedValue_obj]
        exact ⟨.obj res, by simp [Ref.truthy, Ref.isObjectType, truthy, Ref.ownEntries,
          ownEntries, hres]⟩
      | _ => exact ⟨_, mergedValue_of_not_record E _ _ (by intro vs h; cases h)⟩
    · have hb : getOwn k [("global", DEFAULTS_global), ("sites", Val.obj [])] = none := by
        simp [getOwn, Ne.symm hg, Ne.symm hs]
      have hbk : (Ref.val DEFAULTS).optGet E k = inheritedGet k := by
        simp [Ref.optGet, Val.optGet, Val.get, DEFAULTS, hb]
      rw [hbk]
      by_cases hp : k = "__proto__"
      · have hi : inheritedGet k = .objectPrototype := by simp [inheritedGet, hp]
        rw [hi]
        cases v with
        | obj vs =>
          obtain ⟨res, hres⟩ := deepMergeEntries_prototype E vs (Ref.objectPrototype).ownEntries
          rw [mergedValue_obj]
          simp only [Ref.truthy, Ref.isObjectType, Bool.and_self, if_true, hres, Option.map]
          exact ⟨_, rfl⟩
        | _ => exact ⟨_, mergedValue_of_not_record E _ _ (by intro vs h; cases h)⟩
      · have hno : ((inheritedGet k).truthy && (inheritedGet k).isObjectType) = false := by
          unfold inheritedGet
          by_cases h1 : k ∈ objectPrototypeNames
          · simp [hp, h1, Ref.truthy, Ref.isObjectType]
          · simp [hp, h1, Ref.truthy, Ref.isObjectType, truthy]
        exact ⟨v, mergedValue_of_not_object E _ v hno⟩

theorem deepMergeEntries_DEFAULTS (E : Engine) (es out : Props) :
    ∃ res, deepMergeEntries E (.val DEFAULTS) out es = some res := by
  induction es generalizing out with
  | nil => exact ⟨out, deepMergeEntries_nil _ _ _⟩
  | cons e rest ih =>
    obtain ⟨k, v⟩ := e
    obtain ⟨m, hm⟩ := mergedValue_DEFAULTS E k v
    rw [deepMergeEntries_cons, hm]
    exact ih _

theorem deepMerge_DEFAULTS_record (E : Engine) (sp : Props) :
    ∃ m, deepMergeEntries E (.val DEFAULTS) (ownEntries DEFAULTS) sp = some m ∧
      deepMerge E DEFAULTS (.obj sp) = some (.obj m) := by
  obtain ⟨m, hm⟩ := deepMergeEntries_DEFAULTS E sp (ownEntries DEFAULTS)
  refine ⟨m, hm, ?_⟩
  simp [deepMerge, DEFAULTS, truthy, Ref.isObjectType]
  simpa [DEFAULTS] using hm

/-- C4. With nothing stored `getAllSettings` returns `DEFAULTS` itself.  For a
stored record whose `global` is a record `sg`, `deepMerge(DEFAULTS, stored)` is
a record (which `getAllSettings` returns) whose `global` holds, under every key
other than `__proto__`, the stored value when `sg` has the key and the default
when it has not; its `sites` is `{}` when the stored record has none, and when
the stored `sites` is a record every entry of it is kept as it is (every key
other than `__proto__`, which is no host name and reaches the prototype
setter). -/
theorem getAllSettings_merges_defaults (E : Engine) :
    getAllSettings E .undefined = some (DEFAULTS, DEFAULTS) ∧
    ∀ (sp sg : Props), getOwn "global" sp = some (.obj sg) →
      ∃ (m mg : Props) (w : Val),
        deepMerge E DEFAULTS (.obj sp) = some (.obj m) ∧
        getAllSettings E (.obj sp) = some (.obj m, w) ∧
        getOwn "global" m = some (.obj mg) ∧
        (∀ k, k ≠ "__proto__" →
          getOwn k mg = match getOwn k sg with
            | some v => some v
            | none => getOwn k DEFAULTS_global_props) ∧
        (getOwn "sites" sp = none → getOwn "sites" m = some (.obj [])) ∧
        (∀ ss, getOwn "sites" sp = some (.obj ss) →
          ∃ ms, getOwn "sites" m = some (.obj ms) ∧
            ∀ h, h ≠ "__proto__" → getOwn h ms = getOwn h ss) := by
  refine ⟨rfl, ?_⟩
  intro sp sg hg
  obtain ⟨m, hm, hdm⟩ := deepMerge_DEFAULTS_record E sp
  have hglobal := deepMergeEntries_getOwn E _ sp _ m "global" (by decide) hm
  have hsites := deepMergeEntries_getOwn E _ sp _ m "sites" (by decide) hm
  obtain ⟨mg, hmg, hmgk⟩ :=
    deepMergeEntries_flat E DEFAULTS_global_props sg DEFAULTS_global_props DEFAULTS_global_flat
  have hG : getOwn "global" m = some (.obj mg) := by
    rw [hglobal, hg]
    have hbk : (Ref.val DEFAULTS).optGet E "global" = .val DEFAULTS_global := rfl
    simp only [hbk]
    rw [mergedValue_obj]
    simp [DEFAULTS_global, Ref.truthy, Ref.isObjectType, truthy, Ref.ownEntries, ownEntries, hmg]
  have hget : ∃ w, getAllSettings E (.obj sp) = some (.obj m, w) := by
    unfold getAllSettings
    simp only [truthy, Bool.not_true, Bool.false_eq_true, if_false, hdm]
    by_cases hj : E.jsonStringify (.obj m) ≠ E.jsonStringify (.obj sp)
    · exact ⟨_, by rw [if_pos hj]⟩
    · exact ⟨_, by rw [if_neg hj]⟩
  obtain ⟨w, hw⟩ := hget
  refine ⟨m, mg, w, hdm, hw, hG, hmgk, ?_, ?_⟩
  · intro hnone
    rw [hsites, hnone]
    rfl
  · intro ss hss
    obtain ⟨ms, hms, hmsk⟩ := deepMergeEntries_flat E [] ss [] empty_flat
    refine ⟨ms, ?_, ?_⟩
    · rw [hsites, hss]
      have hbk : (Ref.val DEFAULTS).optGet E "sites" = .val (.obj []) := rfl
      simp only [hbk]
      rw [mergedValue_obj]
      simp [Ref.truthy, Ref.isObjectType, truthy, Ref.ownEntries, ownEntries, hms]
    · intro h hh
      rw [hmsk h hh]
      cases getOwn h ss <;> simp [getOwn]

/-- C4, witness: the stored record `{global: {hideAds: false}}` yields the
defaults with `hideAds` alone changed to false. -/
theorem getAllSettings_merges_defaults_witness :
    getAllSettings refEngine .undefined = some (DEFAULTS, DEFAULTS) ∧
    deepMerge refEngine DEFAULTS (.obj [("global", .obj [("hideAds", .bool false)])]) =
      some (.obj [("global", .obj [("enabled", .bool true), ("hideAds", .bool false),
          ("hideComments", .bool false), ("themeEnabled", .bool true),
          ("saturation", .num (.fin (mkRat 85 100))), ("contrast", .num (.fin (mkRat 108 100)))]),
        ("sites", .obj [])]) ∧
    ∃ (m mg : Props) (w : Val),
        deepMerge refEngine DEFAULTS (.obj [("global", .obj [("hideAds", .bool false)])])
          = some (.obj m) ∧
        getAllSettings refEngine (.obj [("global", .obj [("hideAds", .bool false)])])
          = some (.obj m, w) ∧
        getOwn "global" m = some (.obj mg) ∧
        (∀ k, k ≠ "__proto__" →
          getOwn k mg = match getOwn k [("hideAds", Val.bool false)] with
            | some v => some v
            | none => getOwn k DEFAULTS_global_props) ∧
        (getOwn "sites" [("global", Val.obj [("hideAds", .bool false)])] = none →
          getOwn "sites" m = some (.obj [])) ∧
        (∀ ss, getOwn "sites" [("global", Val.obj [("hideAds", .bool false)])] = some (.obj ss) →
          ∃ ms, getOwn "sites" m = some (.obj ms) ∧
            ∀ h, h ≠ "__proto__" → getOwn h ms = getOwn h ss) :=
  ⟨(getAllSettings_merges_defaults refEngine).1, rfl,
   (getAllSettings_merges_defaults refEngine).2
     [("global", .obj [("hideAds", .bool false)])] [("hideAds", .bool false)] rfl⟩

/-- C5, the failing input: a stored `{global: null}` is merged into a record
whose `global` is `null`, so none of the six fields of `DEFAULTS.global` is
there; the keys `global` and `sites` themselves are. -/
theorem deepMerge_global_null (E : Engine) :
    deepMerge E DEFAULTS (.obj [("global", .null)]) =
      some (.obj [("global", .null), ("sites", .obj [])]) := by
  rfl

/-! ## The popup: the snapshot of a new site override -/

theorem getOwn_spreadInto_nil (k : String) (src : Props) :
    getOwn k (spreadInto [] src) = getOwn k src := by
  rw [getOwn_spreadInto]
  cases getOwn k src <;> simp [getOwn]

/-- C6. Let `ps` be the settings `saveSetting` works on (those the popup holds,
loaded first when it holds none, with an empty `sites` when they have none),
let their `sites` be a record in which `sites[hostname]` reads as no override
(a falsy value).  Then `saveSetting` with `useSiteOverride` checked returns
settings in which `sites[hostname]` is a record holding `value` under `key`
and, under every other key, what `computeEffective(settings,
hostname).effective` held before the write; every other entry of `sites` and
every other property of the settings, `global` among them, is unchanged. -/
theorem saveSetting_snapshots_effective (E : Engine) (stored settings : Val) (ps sites : Props)
    (hostname key : String) (value : Val) (r : Resolved)
    (hload : loadedSettings E stored settings = some ps)
    (hsites : field ps "sites" = .obj sites)
    (hno : ((Val.obj sites).get E hostname).truthy = false)
    (hr : computeEffective E (.obj ps) hostname = some r)
    (hkey : key ≠ "__proto__") :
    ∃ (ps1 sites1 o : Props),
      saveSetting E stored
        { hostname := hostname, settings := settings, useSiteOverride := true } key value
        = some (.obj ps1) ∧
      getOwn "sites" ps1 = some (.obj sites1) ∧
      getOwn hostname sites1 = some (.obj o) ∧
      (∀ k, getOwn k o = if key = k then some value else getOwn k r.effective) ∧
      (∀ h, h ≠ hostname → getOwn h sites1 = getOwn h sites) ∧
      (∀ k, k ≠ "sites" → getOwn k ps1 = getOwn k ps) := by
  have hown : (getOwn "sites" ps).isSome = true := by
    unfold field at hsites
    cases h : getOwn "sites" ps with
    | none => rw [h] at hsites; cases hsites
    | some x => rfl
  have hhost : hostname ≠ "__proto__" ∨ (getOwn hostname sites).isSome = true := by
    by_cases hp : hostname = "__proto__"
    · right
      cases hg : getOwn hostname sites with
      | some x => rfl
      | none =>
        rw [Val.get, hg] at hno
        simp [inheritedGet, hp, Ref.truthy] at hno
    · exact Or.inl hp
  have hsnap : snapshotIfAbsent E ps sites hostname =
      some (assign sites hostname (.obj (spreadInto [] r.effective))) := by
    simp [snapshotIfAbsent, hno, hr]
  have hread : (Val.obj (assign sites hostname (.obj (spreadInto [] r.effective)))).get E hostname
      = .val (.obj (spreadInto [] r.effective)) := by
    simp [Val.get, getOwn_assign _ _ _ _ hhost]
  have hown1 : (getOwn hostname
      (assign sites hostname (.obj (spreadInto [] r.effective)))).isSome = true := by
    simp [getOwn_assign _ _ _ _ hhost]
  refine ⟨assign ps "sites" (.obj (assign (assign sites hostname
      (.obj (spreadInto [] r.effective))) hostname
      (.obj (assign (spreadInto [] r.effective) key value)))),
    assign (assign sites hostname (.obj (spreadInto [] r.effective))) hostname
      (.obj (assign (spreadInto [] r.effective) key value)),
    assign (spreadInto [] r.effective) key value, ?_, ?_, ?_, ?_, ?_, ?_⟩
  · simp only [saveSetting, hload, hsites, hsnap, hread, if_true]
  · rw [getOwn_assign _ _ _ _ (Or.inr hown)]; simp
  · rw [getOwn_assign _ _ _ _ (Or.inr hown1)]; simp
  · intro k
    rw [getOwn_assign _ _ _ _ (Or.inl hkey), getOwn_spreadInto_nil]
  · intro h hh
    rw [getOwn_assign_of_ne _ _ _ _ (Ne.symm hh), getOwn_assign_of_ne _ _ _ _ (Ne.symm hh)]
  · intro k hk
    rw [getOwn_assign_of_ne _ _ _ _ (Ne.symm hk)]

/-- C6, witness: in a popup that has not loaded its settings yet, with nothing
stored, writing `saturation = 0.5` for `x.com` creates an override with
`enabled`, `hideAds`, `hideComments`, `themeEnabled` and `contrast` of the
effective configuration and `saturation` 0.5. -/
theorem saveSetting_snapshots_effective_witness :
    saveSetting refEngine .undefined
        { hostname := "x.com", settings := .null, useSiteOverride := true }
        "saturation" (.num (.fin (mkRat 5 10)))
      = some (.obj [("global", DEFAULTS_global),
          ("sites", .obj [("x.com", .obj [("enabled", .bool true), ("hideAds", .bool true),
            ("hideComments", .bool false), ("themeEnabled", .bool true),
            ("saturation", .num (.fin (mkRat 5 10))),
            ("contrast", .num (.fin (mkRat 108 100)))])])]) ∧
    ∃ (ps1 sites1 o : Props),
      saveSetting refEngine .undefined
        { hostname := "x.com", settings := .null, useSiteOverride := true }
        "saturation" (.num (.fin (mkRat 5 10))) = some (.obj ps1) ∧
      getOwn "sites" ps1 = some (.obj sites1) ∧
      getOwn "x.com" sites1 = some (.obj o) ∧
      (∀ k, getOwn k o = if "saturation" = k then some (.num (.fin (mkRat 5 10)))
        else getOwn k DEFAULTS_global_props) ∧
      (∀ h, h ≠ "x.com" → getOwn h sites1 = getOwn h []) ∧
      (∀ k, k ≠ "sites" →
        getOwn k ps1 = getOwn k [("global", DEFAULTS_global), ("sites", .obj [])]) :=
  ⟨rfl, saveSetting_snapshots_effective refEngine .undefined .null
    [("global", DEFAULTS_global), ("sites", .obj [])] [] "x.com" "saturation"
    (.num (.fin (mkRat 5 10)))
    { effective := DEFAULTS_global_props, hasSiteOverride := false }
    rfl rfl rfl rfl (by decide)⟩

/-! ## The stylesheet -/

theorem infix_of_append (a b c : String) : b.data <:+: (a ++ b ++ c).data := by
  refine ⟨a.data, c.data, ?_⟩
  simp [String.data_append]

theorem buildCss_eq (E : Engine) (e : Props) (enabled themeEnabled hideAds hideComments : Bool)
    (sat con : JSNum)
    (h1 : field e "enabled" = .bool enabled)
    (h2 : field e "themeEnabled" = .bool themeEnabled)
    (h3 : field e "hideAds" = .bool hideAds)
    (h4 : field e "hideComments" = .bool hideComments)
    (h5 : field e "saturation" = .num sat)
    (h6 : field e "contrast" = .num con) :
    buildCss E e = some
      (if enabled then
        (if themeEnabled then themeBlock (E.numberToString sat) (E.numberToString con) else "") ++
        (if hideAds then hideBlock "Hide Ads" AD_CSS_SELECTORS else "") ++
        (if hideComments then hideBlock "Hide Comments" COMMENT_CSS_SELECTORS else "")
       else "") := by
  unfold buildCss
  rw [h1, h2, h3, h4, h5, h6]
  cases enabled <;> cases themeEnabled <;> cases hideAds <;> cases hideComments <;>
    simp [truthy, toStringV, String.append_assoc]

/-- C7. For an effective configuration (four booleans and two numbers),
`buildCss` returns the empty string when `enabled` is false and otherwise the
theme block, present exactly when `themeEnabled`, then the ad block over
`AD_CSS_SELECTORS`, present exactly when `hideAds`, then the comment block over
`COMMENT_CSS_SELECTORS`, present exactly when `hideComments`; the theme block
carries the declaration `filter: saturate(<saturation>) contrast(<contrast>);`. -/
theorem buildCss_blocks (E : Engine) (e : Props) (enabled themeEnabled hideAds hideComments : Bool)
    (sat con : JSNum)
    (h1 : field e "enabled" = .bool enabled)
    (h2 : field e "themeEnabled" = .bool themeEnabled)
    (h3 : field e "hideAds" = .bool hideAds)
    (h4 : field e "hideComments" = .bool hideComments)
    (h5 : field e "saturation" = .num sat)
    (h6 : field e "contrast" = .num con) :
    buildCss E e = some
      (if enabled then
        (if themeEnabled then themeBlock (E.numberToString sat) (E.numberToString con) else "") ++
        (if hideAds then hideBlock "Hide Ads" AD_CSS_SELECTORS else "") ++
        (if hideComments then hideBlock "Hide Comments" COMMENT_CSS_SELECTORS else "")
       else "") ∧
    (filterDeclaration (E.numberToString sat) (E.numberToString con)).data <:+:
      (themeBlock (E.numberToString sat) (E.numberToString con)).data := by
  exact ⟨buildCss_eq E e enabled themeEnabled hideAds hideComments sat con h1 h2 h3 h4 h5 h6,
    infix_of_append _ _ _⟩

set_option maxRecDepth 20000 in
/-- C7, witness: for the default configuration the stylesheet contains the ad
block and `saturate(0.85) contrast(1.08)`, and does not contain the comment
block. -/
theorem buildCss_blocks_witness :
    (buildCss refEngine DEFAULTS_global_props = some
      (themeBlock "0.85" "1.08" ++ hideBlock "Hide Ads" AD_CSS_SELECTORS ++ "")) ∧
    (hideBlock "Hide Ads" AD_CSS_SELECTORS).data <:+:
      (themeBlock "0.85" "1.08" ++ hideBlock "Hide Ads" AD_CSS_SELECTORS ++ "").data ∧
    "saturate(0.85) contrast(1.08)".data <:+:
      (themeBlock "0.85" "1.08" ++ hideBlock "Hide Ads" AD_CSS_SELECTORS ++ "").data ∧
    ¬ (hideBlock "Hide Comments" COMMENT_CSS_SELECTORS).data <:+:
      (themeBlock "0.85" "1.08" ++ hideBlock "Hide Ads" AD_CSS_SELECTORS ++ "").data := by
  refine ⟨(buildCss_blocks refEngine DEFAULTS_global_props true true true false
    (.fin (mkRat 85 100)) (.fin (mkRat 108 100)) rfl rfl rfl rfl rfl rfl).1,
    infix_of_append _ _ _, ?_, ?_⟩
  · have h := (buildCss_blocks refEngine DEFAULTS_global_props true true true false
      (.fin (mkRat 85 100)) (.fin (mkRat 108 100)) rfl rfl rfl rfl rfl rfl).2
    have hd : "saturate(0.85) contrast(1.08)".data <:+:
        (filterDeclaration "0.85" "1.08").data := ⟨"filter: ".data, ";".data, by decide⟩
    have ht : (themeBlock "0.85" "1.08").data <:+:
        (themeBlock "0.85" "1.08" ++ hideBlock "Hide Ads" AD_CSS_SELECTORS ++ "").data :=
      ⟨[], (hideBlock "Hide Ads" AD_CSS_SELECTORS ++ "").data, by
        simp [String.data_append]⟩
    exact hd.trans (h.trans ht)
  · intro hin
    have hq : 'q' ∈ (hideBlock "Hide Comments" COMMENT_CSS_SELECTORS).data := by decide
    have hnq : 'q' ∉
        (themeBlock "0.85" "1.08" ++ hideBlock "Hide Ads" AD_CSS_SELECTORS ++ "").data := by
      decide
    exact hnq (hin.subset hq)

/-! ## Suppression and restoration of elements -/

theorem attrValue_withoutAttr_ne (k k' : String) (attrs : List (String × String)) (h : k ≠ k') :
    attrValue k (withoutAttr k' attrs) = attrValue k attrs := by
  induction attrs with
  | nil => rfl
  | cons a rest ih =>
    obtain ⟨k1, v1⟩ := a
    by_cases h1 : k1 = k'
    · have h2 : ¬ k1 = k := fun e => h (e.symm.trans h1)
      simp [withoutAttr, attrValue, h1, ih, h2, Ne.symm h]
    · by_cases h2 : k1 = k
      · subst h2
        simp [withoutAttr, attrValue, h1]
      · simp [withoutAttr, attrValue, h1, h2, ih]

theorem attrValue_withoutAttr_self (k : String) (attrs : List (String × String)) :
    attrValue k (withoutAttr k attrs) = none := by
  induction attrs with
  | nil => rfl
  | cons a rest ih =>
    obtain ⟨k1, v1⟩ := a
    by_cases h1 : k1 = k
    · simp [withoutAttr, h1, ih]
    · simp [withoutAttr, attrValue, h1, ih]

theorem withoutAttr_of_none (k : String) (attrs : List (String × String))
    (h : attrValue k attrs = none) : withoutAttr k attrs = attrs := by
  induction attrs with
  | nil => rfl
  | cons a rest ih =>
    obtain ⟨k1, v1⟩ := a
    by_cases h1 : k1 = k
    · simp [attrValue, h1] at h
    · simp only [attrValue, if_neg h1] at h
      simp [withoutAttr, h1, ih h]

theorem withoutAttr_idem (k : String) (attrs : List (String × String)) :
    withoutAttr k (withoutAttr k attrs) = withoutAttr k attrs :=
  withoutAttr_of_none k _ (attrValue_withoutAttr_self k attrs)

theorem withoutAttr_comm (k k' : String) (attrs : List (String × String)) :
    withoutAttr k (withoutAttr k' attrs) = withoutAttr k' (withoutAttr k attrs) := by
  induction attrs with
  | nil => rfl
  | cons a rest ih =>
    obtain ⟨k1, v1⟩ := a
    by_cases h1 : k1 = k
    · subst h1
      by_cases h2 : k1 = k'
      · subst h2; simp [withoutAttr, ih]
      · simp [withoutAttr, h2, ih]
    · by_cases h2 : k1 = k'
      · subst h2; simp [withoutAttr, h1, ih]
      · simp [withoutAttr, h1, h2, ih]

theorem getAttribute_markHidden (x : Elem) :
    getAttribute (markHidden x) OBSERVER_ATTR = some "1" := by
  simp [markHidden, getAttribute, setAttribute, attrValue]

/-- Restoring a suppressed element gives back its display and removes the two
marker attributes. -/
theorem restoreEl_markHidden (x : Elem) :
    restoreEl (markHidden x) =
      { x with attrs := withoutAttr PREV_DISPLAY_ATTR (withoutAttr OBSERVER_ATTR x.attrs) } := by
  have hne : PREV_DISPLAY_ATTR ≠ OBSERVER_ATTR := by decide
  have hne' : ¬ OBSERVER_ATTR = PREV_DISPLAY_ATTR := by decide
  have hprev : getAttribute (markHidden x) PREV_DISPLAY_ATTR = some x.display := by
    simp only [markHidden, getAttribute, setAttribute, attrValue, if_neg hne']
    rw [attrValue_withoutAttr_ne _ _ _ hne]
    simp [attrValue]
  unfold restoreEl
  simp only [hprev]
  have hdisp : (if x.display = "" then "" else x.display) = x.display := by
    by_cases h : x.display = "" <;> simp [h]
  simp only [hdisp]
  simp only [markHidden, setAttribute, removeAttribute, withoutAttr, if_true, if_neg hne,
    if_neg hne', withoutAttr_idem]
  rw [withoutAttr_comm OBSERVER_ATTR PREV_DISPLAY_ATTR, withoutAttr_idem]

/-- A document in which every element is as it was or has been suppressed. -/
theorem updateAt_forall₂ (R : Elem → Elem → Prop) (f : Elem → Elem)
    (hf : ∀ x y, R x y → R x (f y)) (doc d : List Elem) (i : Nat)
    (h : List.Forall₂ R doc d) : List.Forall₂ R doc (updateAt f i d) := by
  induction h generalizing i with
  | nil => cases i <;> exact List.Forall₂.nil
  | cons hxy _ ih =>
    cases i with
    | zero => exact List.Forall₂.cons (hf _ _ hxy) (by assumption)
    | succ j => exact List.Forall₂.cons hxy (ih j)

theorem hideEl_keeps (doc d : List Elem) (el : Nat)
    (h : List.Forall₂ (fun x y => y = x ∨ y = markHidden x) doc d) :
    List.Forall₂ (fun x y => y = x ∨ y = markHidden x) doc (hideEl d el) := by
  apply updateAt_forall₂ _ _ _ _ _ _ h
  intro x y hxy
  by_cases hm : getAttribute y OBSERVER_ATTR = some "1"
  · simp only [hm, if_true]; exact hxy
  · simp only [hm, if_false]
    rcases hxy with h1 | h1
    · right; rw [h1]
    · exact absurd (h1 ▸ getAttribute_markHidden x) hm

theorem hideMatches_keeps (E : Engine) (doc d : List Elem) (sel : String)
    (h : List.Forall₂ (fun x y => y = x ∨ y = markHidden x) doc d) :
    List.Forall₂ (fun x y => y = x ∨ y = markHidden x) doc (hideMatches E d sel) := by
  unfold hideMatches
  generalize querySelectorAll E d sel = targets
  induction targets generalizing d with
  | nil => exact h
  | cons t rest ih => exact ih _ (hideEl_keeps doc d _ h)

theorem hideSelectors_keeps (E : Engine) (doc d : List Elem) (sels : List String)
    (h : List.Forall₂ (fun x y => y = x ∨ y = markHidden x) doc d) :
    List.Forall₂ (fun x y => y = x ∨ y = markHidden x) doc (sels.foldl (hideMatches E) d) := by
  induction sels generalizing d with
  | nil => exact h
  | cons s rest ih => exact ih _ (hideMatches_keeps E doc d s h)

theorem applyDynamicHides_keeps (E : Engine) (effective : Props) (doc d : List Elem)
    (h : List.Forall₂ (fun x y => y = x ∨ y = markHidden x) doc d) :
    List.Forall₂ (fun x y => y = x ∨ y = markHidden x) doc (applyDynamicHides E effective d) := by
  unfold applyDynamicHides
  by_cases h0 : (!truthy (field effective "enabled")) = true
  · rw [if_pos h0]; exact h
  · rw [if_neg h0]
    have hads : List.Forall₂ (fun x y => y = x ∨ y = markHidden x) doc
        (if truthy (field effective "hideAds") = true then
          AD_DYNAMIC_SELECTORS.foldl (hideMatches E) d else d) := by
      by_cases h1 : truthy (field effective "hideAds") = true
      · rw [if_pos h1]; exact hideSelectors_keeps E doc _ _ h
      · rw [if_neg h1]; exact h
    by_cases h2 : truthy (field effective "hideComments") = true
    · simp only [h2, if_true]; exact hideSelectors_keeps E doc _ _ hads
    · simp only [h2]; exact hads

theorem forall₂_refl_or (doc : List Elem) :
    List.Forall₂ (fun x y => y = x ∨ y = markHidden x) doc doc := by
  induction doc with
  | nil => exact List.Forall₂.nil
  | cons x rest ih => exact List.Forall₂.cons (Or.inl rfl) ih

/-- Restoring a document whose elements were unmarked and are now as they were
or suppressed. -/
theorem restoreHiddenEls_of_suppressed (doc d : List Elem)
    (h : List.Forall₂ (fun x y => y = x ∨ y = markHidden x) doc d)
    (H1 : ∀ x ∈ doc, getAttribute x OBSERVER_ATTR = none) :
    List.Forall₂ (fun x z => z = x ∨
      z = { x with attrs := withoutAttr PREV_DISPLAY_ATTR x.attrs }) doc (restoreHiddenEls d) := by
  unfold restoreHiddenEls
  induction h with
  | nil => exact List.Forall₂.nil
  | @cons x y xs ys hxy _ ih =>
    have hx := H1 x (List.mem_cons_self _ _)
    have ih' := ih (fun z hz => H1 z (List.mem_cons_of_mem _ hz))
    rw [List.map_cons]
    refine List.Forall₂.cons ?_ ih'
    rcases hxy with h1 | h1
    · subst h1
      simp [hx]
    · subst h1
      right
      rw [if_pos (getAttribute_markHidden x), restoreEl_markHidden,
        withoutAttr_of_none OBSERVER_ATTR x.attrs hx]

theorem display_of_restored (doc r : List Elem)
    (h : List.Forall₂ (fun x z => z = x ∨
      z = { x with attrs := withoutAttr PREV_DISPLAY_ATTR x.attrs }) doc r) :
    r.map Elem.display = doc.map Elem.display := by
  induction h with
  | nil => rfl
  | cons hxz _ ih =>
    rw [List.map_cons, List.map_cons, ih]
    rcases hxz with h | h <;> rw [h]

theorem unmarked_of_restored (doc r : List Elem)
    (h : List.Forall₂ (fun x z => z = x ∨
      z = { x with attrs := withoutAttr PREV_DISPLAY_ATTR x.attrs }) doc r)
    (H1 : ∀ x ∈ doc, getAttribute x OBSERVER_ATTR = none) :
    ∀ z ∈ r, getAttribute z OBSERVER_ATTR = none := by
  induction h with
  | nil => intro z hz; cases hz
  | @cons x z0 xs zs hxz _ ih =>
    intro z hz
    rcases List.mem_cons.mp hz with hz | hz
    · subst hz
      have hx := H1 x (List.mem_cons_self _ _)
      rcases hxz with h | h
      · rw [h]; exact hx
      · rw [h]
        have hne : OBSERVER_ATTR ≠ PREV_DISPLAY_ATTR := by decide
        simp only [getAttribute]
        rw [attrValue_withoutAttr_ne _ _ _ hne]
        exact hx
    · exact ih (fun z hz => H1 z (List.mem_cons_of_mem _ hz)) z hz

theorem same_of_restored (doc r : List Elem)
    (h : List.Forall₂ (fun x z => z = x ∨
      z = { x with attrs := withoutAttr PREV_DISPLAY_ATTR x.attrs }) doc r)
    (H2 : ∀ x ∈ doc, getAttribute x PREV_DISPLAY_ATTR = none) : r = doc := by
  induction h with
  | nil => rfl
  | @cons x z0 xs zs hxz _ ih =>
    have hx := H2 x (List.mem_cons_self _ _)
    rw [ih (fun z hz => H2 z (List.mem_cons_of_mem _ hz))]
    rcases hxz with h | h
    · rw [h]
    · rw [h, withoutAttr_of_none PREV_DISPLAY_ATTR x.attrs hx]

/-- C8. In a document where no element carries `data-study-hidden`, a pass of
`applyDynamicHides` leaves every element as it was or suppressed (its display
recorded in `data-study-prev-display`, its display `none`, the marker set);
`restoreHiddenEls` then gives every element the display it had before the pass
and leaves no element carrying `data-study-hidden`; when no element carried
`data-study-prev-display` before the pass either, the document is exactly what
it was, so no element carries it afterwards. -/
theorem restoreHiddenEls_after_applyDynamicHides (E : Engine) (effective : Props)
    (doc : List Elem) (H1 : ∀ x ∈ doc, getAttribute x OBSERVER_ATTR = none) :
    List.Forall₂ (fun x y => y = x ∨ y = markHidden x) doc (applyDynamicHides E effective doc) ∧
    (restoreHiddenEls (applyDynamicHides E effective doc)).map Elem.display
      = doc.map Elem.display ∧
    (∀ z ∈ restoreHiddenEls (applyDynamicHides E effective doc),
      getAttribute z OBSERVER_ATTR = none) ∧
    ((∀ x ∈ doc, getAttribute x PREV_DISPLAY_ATTR = none) →
      restoreHiddenEls (applyDynamicHides E effective doc) = doc) := by
  have hinv := applyDynamicHides_keeps E effective doc doc (forall₂_refl_or doc)
  have hres := restoreHiddenEls_of_suppressed doc _ hinv H1
  exact ⟨hinv, display_of_restored doc _ hres, unmarked_of_restored doc _ hres H1,
    fun H2 => same_of_restored doc _ hres H2⟩

/-- C8, witness: on the page `adPageEls` the pass suppresses the `aside` around
the element matched by `[data-ad]`, and `restoreHiddenEls` gives the page back
as it was. -/
theorem restoreHiddenEls_after_applyDynamicHides_witness :
    (applyDynamicHides refEngine DEFAULTS_global_props adPageEls).map Elem.display
      = ["", "", "none", "block"] ∧
    (restoreHiddenEls (applyDynamicHides refEngine DEFAULTS_global_props adPageEls)).map
      Elem.display = ["", "", "block", "block"] ∧
    (∀ z ∈ restoreHiddenEls (applyDynamicHides refEngine DEFAULTS_global_props adPageEls),
      getAttribute z OBSERVER_ATTR = none) ∧
    restoreHiddenEls (applyDynamicHides refEngine DEFAULTS_global_props adPageEls) = adPageEls :=
  ⟨by rfl,
   (restoreHiddenEls_after_applyDynamicHides refEngine DEFAULTS_global_props
      adPageEls (by decide)).2.1,
   (restoreHiddenEls_after_applyDynamicHides refEngine DEFAULTS_global_props
      adPageEls (by decide)).2.2.1,
   (restoreHiddenEls_after_applyDynamicHides refEngine DEFAULTS_global_props
      adPageEls (by decide)).2.2.2 (by decide)⟩

/-! ## The page controller -/

theorem restoreHiddenEls_unmarks (d : List Elem) :
    ∀ z ∈ restoreHiddenEls d, getAttribute z OBSERVER_ATTR ≠ some "1" := by
  intro z hz
  unfold restoreHiddenEls at hz
  obtain ⟨y, _, hy⟩ := List.mem_map.mp hz
  by_cases hm : getAttribute y OBSERVER_ATTR = some "1"
  · rw [if_pos hm] at hy
    subst hy
    have hne : OBSERVER_ATTR ≠ PREV_DISPLAY_ATTR := by decide
    simp only [restoreEl, removeAttribute, getAttribute]
    rw [attrValue_withoutAttr_ne _ _ _ hne, attrValue_withoutAttr_self]
    simp
  · rw [if_neg hm] at hy
    subst hy
    exact hm

/-- The stylesheet of a configuration that `computeEffective` returned. -/
theorem buildCss_of_computeEffective (E : Engine) (settings : Val) (host : String) (r : Resolved)
    (hr : computeEffective E settings host = some r) :
    ∃ css, buildCss E r.effective = some css := by
  obtain ⟨sat, con, hsat, hcon⟩ := computeEffective_some E settings host r hr
  obtain ⟨r1, hr1, _, h1, h2, h3, h4, h5, h6⟩ :=
    computeEffective_fields E settings host sat con hsat hcon
  have : r1 = r := Option.some.inj (hr1.symm.trans hr)
  subst this
  exact ⟨_, buildCss_eq E r1.effective _ _ _ _ sat con h1 h4 h2 h3 h5 h6⟩

theorem applyEffective_disabled (E : Engine) (e : Props) (pg : Page)
    (h : field e "enabled" = .bool false) :
    (applyEffective E e pg).styleEl = none ∧ (applyEffective E e pg).observer = false ∧
      (applyEffective E e pg).els = restoreHiddenEls pg.els := by
  obtain ⟨els, st, ob, ce⟩ := pg
  cases ob <;>
    simp [applyEffective, h, truthy, stopObserver, removeStyleEl]

theorem applyEffective_enabled (E : Engine) (e : Props) (pg : Page) (css : String)
    (h : field e "enabled" = .bool true) (hcss : buildCss E e = some css) :
    (applyEffective E e pg).styleEl = some css ∧ (applyEffective E e pg).observer = true ∧
      (applyEffective E e pg).els = applyDynamicHides E e pg.els := by
  obtain ⟨els, st, ob, ce⟩ := pg
  cases ob <;> cases st <;>
    simp [applyEffective, h, truthy, hcss, startObserver, setStyleText]

theorem applyFromStorage_eq (E : Engine) (host : String) (st : Val) (pg : Page) (s w : Val)
    (r : Resolved) (h : getAllSettings E st = some (s, w))
    (hr : computeEffective E s host = some r) :
    applyFromStorage E host st pg = applyEffective E r.effective pg := by
  simp [applyFromStorage, h, hr]

/-- C9. When the stored settings resolve to `enabled: true` for the host and
`applyFromStorage` runs, the stylesheet is installed and the observer is set;
when it then runs on settings that resolve to `enabled: false`, the document
has no style element of id `STYLE_ID`, no element carries the marker
`data-study-hidden="1"`, and the observer is stopped. -/
theorem applyFromStorage_disable_reverses (E : Engine) (host : String) (st1 st2 : Val)
    (pg : Page) (s1 s2 w1 w2 : Val) (r1 r2 : Resolved)
    (h1 : getAllSettings E st1 = some (s1, w1))
    (hr1 : computeEffective E s1 host = some r1)
    (he1 : field r1.effective "enabled" = .bool true)
    (h2 : getAllSettings E st2 = some (s2, w2))
    (hr2 : computeEffective E s2 host = some r2)
    (he2 : field r2.effective "enabled" = .bool false) :
    (∃ css, (applyFromStorage E host st1 pg).styleEl = some css ∧
      (applyFromStorage E host st1 pg).observer = true) ∧
    (applyFromStorage E host st2 (applyFromStorage E host st1 pg)).styleEl = none ∧
    (∀ z ∈ (applyFromStorage E host st2 (applyFromStorage E host st1 pg)).els,
      getAttribute z OBSERVER_ATTR ≠ some "1") ∧
    (applyFromStorage E host st2 (applyFromStorage E host st1 pg)).observer = false := by
  obtain ⟨css, hcss⟩ := buildCss_of_computeEffective E s1 host r1 hr1
  have hon := applyEffective_enabled E r1.effective pg css he1 hcss
  have hoff := applyEffective_disabled E r2.effective (applyFromStorage E host st1 pg) he2
  rw [applyFromStorage_eq E host st2 _ s2 w2 r2 h2 hr2]
  rw [applyFromStorage_eq E host st1 pg s1 w1 r1 h1 hr1] at hoff ⊢
  refine ⟨⟨css, hon.1, hon.2.1⟩, hoff.1, ?_, hoff.2.1⟩
  rw [hoff.2.2]
  exact restoreHiddenEls_unmarks _

/-- C9, witness: on a page with an element matched by `[data-ad]`, the default
settings followed by `{global: {enabled: false}}` leave no stylesheet, no marked
element and no observer. -/
theorem applyFromStorage_disable_reverses_witness :
    (∃ css, (applyFromStorage refEngine "x.com" .undefined adPage).styleEl = some css ∧
      (applyFromStorage refEngine "x.com" .undefined adPage).observer = true) ∧
    (applyFromStorage refEngine "x.com" (.obj [("global", .obj [("enabled", .bool false)])])
      (applyFromStorage refEngine "x.com" .undefined adPage)).styleEl = none ∧
    (∀ z ∈ (applyFromStorage refEngine "x.com"
        (.obj [("global", .obj [("enabled", .bool false)])])
        (applyFromStorage refEngine "x.com" .undefined adPage)).els,
      getAttribute z OBSERVER_ATTR ≠ some "1") ∧
    (applyFromStorage refEngine "x.com" (.obj [("global", .obj [("enabled", .bool false)])])
      (applyFromStorage refEngine "x.com" .undefined adPage)).observer = false :=
  applyFromStorage_disable_reverses refEngine "x.com" .undefined
    (.obj [("global", .obj [("enabled", .bool false)])]) adPage
    DEFAULTS
    (.obj [("global", .obj [("enabled", .bool false), ("hideAds", .bool true),
        ("hideComments", .bool false), ("themeEnabled", .bool true),
        ("saturation", .num (.fin (mkRat 85 100))), ("contrast", .num (.fin (mkRat 108 100)))]),
      ("sites", .obj [])])
    DEFAULTS
    (.obj [("global", .obj [("enabled", .bool false), ("hideAds", .bool true),
        ("hideComments", .bool false), ("themeEnabled", .bool true),
        ("saturation", .num (.fin (mkRat 85 100))), ("contrast", .num (.fin (mkRat 108 100)))]),
      ("sites", .obj [])])
    { effective := DEFAULTS_global_props, hasSiteOverride := false }
    { effective := [("enabled", .bool false), ("hideAds", .bool true),
        ("hideComments", .bool false), ("themeEnabled", .bool true),
        ("saturation", .num (.fin (mkRat 85 100))), ("contrast", .num (.fin (mkRat 108 100)))],
      hasSiteOverride := false }
    rfl rfl rfl rfl rfl rfl

/-- C10, the failing input: on the page `adPage`, the default settings
(`hideAds` true) followed by `{global: {hideAds: false}}` (still enabled) leave
the `aside` around the advertisement suppressed, whereas the second settings
alone leave the page as it was; the stylesheet is the same in both cases. -/
theorem applyFromStorage_keeps_earlier_hides :
    (applyFromStorage refEngine "x.com" (.obj [("global", .obj [("hideAds", .bool false)])])
      (applyFromStorage refEngine "x.com" .undefined adPage)).els.map Elem.display
        = ["", "", "none", "block"] ∧
    (applyFromStorage refEngine "x.com" (.obj [("global", .obj [("hideAds", .bool false)])])
      (applyFromStorage refEngine "x.com" .undefined adPage)).els.map
        (fun el => getAttribute el OBSERVER_ATTR) = [none, none, some "1", none] ∧
    (applyFromStorage refEngine "x.com" (.obj [("global", .obj [("hideAds", .bool false)])])
      adPage).els = adPage.els ∧
    (applyFromStorage refEngine "x.com" (.obj [("global", .obj [("hideAds", .bool false)])])
      (applyFromStorage refEngine "x.com" .undefined adPage)).styleEl =
    (applyFromStorage refEngine "x.com" (.obj [("global", .obj [("hideAds", .bool false)])])
      adPage).styleEl :=
  ⟨rfl, rfl, rfl, rfl⟩

/-! ## The throttle -/

theorem callAt_in_window (c : Clocked) (t0 t : Int) (rs : List Int)
    (hlast : c.th.last = t0) (hruns : c.runs = rs)
    (htimer : c.th.timer = none ∨ c.th.timer = some (t0 + 250))
    (h1 : t0 ≤ t) (h2 : t < t0 + 250) :
    (callAt 250 c t).th.last = t0 ∧ (callAt 250 c t).runs = rs ∧
      (callAt 250 c t).th.timer = some (t0 + 250) := by
  obtain ⟨⟨last, timer⟩, runs⟩ := c
  simp only at hlast hruns htimer
  subst hlast hruns
  have hrem : ¬ (250 - (t - last) ≤ 0) := by omega
  rcases htimer with h | h
  · subst h
    simp [callAt, fireDue, throttled, hrem]
    omega
  · subst h
    have hdue : ¬ (last + 250 ≤ t) := by omega
    simp [callAt, fireDue, throttled, hrem, hdue]

theorem callsAt_in_window (ts : List Int) (c : Clocked) (t0 : Int) (rs : List Int)
    (hlast : c.th.last = t0) (hruns : c.runs = rs)
    (htimer : c.th.timer = none ∨ c.th.timer = some (t0 + 250))
    (hts : ∀ t ∈ ts, t0 ≤ t ∧ t < t0 + 250) :
    (callsAt 250 c ts).th.last = t0 ∧ (callsAt 250 c ts).runs = rs ∧
      (callsAt 250 c ts).th.timer = if ts = [] then c.th.timer else some (t0 + 250) := by
  induction ts generalizing c with
  | nil => exact ⟨hlast, hruns, rfl⟩
  | cons t rest ih =>
    have ht := hts t (List.mem_cons_self _ _)
    obtain ⟨a1, a2, a3⟩ := callAt_in_window c t0 t rs hlast hruns htimer ht.1 ht.2
    have := ih (callAt 250 c t) a1 a2 (Or.inr a3)
      (fun u hu => hts u (List.mem_cons_of_mem _ hu))
    obtain ⟨b1, b2, b3⟩ := this
    refine ⟨b1, b2, ?_⟩
    show (callsAt 250 (callAt 250 c t) rest).th.timer = _
    rw [b3, a3]
    by_cases hr : rest = [] <;> simp [hr]

/-- C11. Under an explicit clock, with a timer that fires at its due time: a
call of `throttle(fn, 250)` in a quiet period (no timeout pending, the last run
at least 250 ms ago) runs `fn` at once; after any number `M` of further calls
within the 250 ms that follow, `fn` has run, by the end of that window, once
more when `M ≥ 1` (the trailing run, at the end of the window) and not again
when `M = 0`: at most 2 runs, whatever `M`. -/
theorem throttle_window_bound (th : Throttle) (t0 : Int) (ts : List Int)
    (hquiet : 250 - (t0 - th.last) ≤ 0) (hnone : th.timer = none)
    (hts : ∀ t ∈ ts, t0 ≤ t ∧ t < t0 + 250) :
    (callAt 250 { th := th, runs := [] } t0).runs = [t0] ∧
    (fireDue (callsAt 250 (callAt 250 { th := th, runs := [] } t0) ts) (t0 + 250)).runs =
      (if ts = [] then [t0] else [t0, t0 + 250]) ∧
    (fireDue (callsAt 250 (callAt 250 { th := th, runs := [] } t0) ts) (t0 + 250)).runs.length
      ≤ 2 := by
  obtain ⟨last, timer⟩ := th
  simp only at hquiet hnone
  subst hnone
  have hfirst : callAt 250 { th := { last := last, timer := none }, runs := [] } t0 =
      { th := { last := t0, timer := none }, runs := [t0] } := by
    simp [callAt, fireDue, throttled, hquiet]
  rw [hfirst]
  obtain ⟨b1, b2, b3⟩ := callsAt_in_window ts
    { th := { last := t0, timer := none }, runs := [t0] } t0 [t0] rfl rfl (Or.inl rfl) hts
  have hend : (fireDue (callsAt 250 { th := { last := t0, timer := none }, runs := [t0] } ts)
      (t0 + 250)).runs = (if ts = [] then [t0] else [t0, t0 + 250]) := by
    unfold fireDue
    rw [b3]
    by_cases hr : ts = []
    · subst hr
      rfl
    · simp [hr, b2, timeoutCallback]
  refine ⟨rfl, hend, ?_⟩
  rw [hend]
  by_cases hr : ts = [] <;> simp [hr]

/-- C11, witness: the first call ever, at time 1000, then calls at 1010, 1100
and 1249: `fn` runs at 1000 and at 1250. -/
theorem throttle_window_bound_witness :
    (callAt 250 { th := Throttle.init, runs := [] } 1000).runs = [1000] ∧
    (fireDue (callsAt 250 (callAt 250 { th := Throttle.init, runs := [] } 1000)
      [1010, 1100, 1249]) (1000 + 250)).runs =
      (if [1010, 1100, (1249 : Int)] = [] then [1000] else [1000, 1000 + 250]) ∧
    (fireDue (callsAt 250 (callAt 250 { th := Throttle.init, runs := [] } 1000)
      [1010, 1100, 1249]) (1000 + 250)).runs.length ≤ 2 :=
  throttle_window_bound Throttle.init 1000 [1010, 1100, 1249] (by decide) rfl (by decide)

/-! ## The observer: a pass after the stop -/

theorem tickBody_of_not_enabled (E : Engine) (pg : Page) (h : effectiveEnabled pg = false) :
    tickBody E pg = pg := by
  unfold effectiveEnabled at h
  unfold tickBody
  cases hc : pg.currentEffective with
  | none => rfl
  | some e =>
    rw [hc] at h
    simp only at h
    simp [h]

theorem tickBody_keeps (E : Engine) (pg : Page) :
    (tickBody E pg).observer = pg.observer ∧
      (tickBody E pg).currentEffective = pg.currentEffective := by
  obtain ⟨els, st, ob, ce⟩ := pg
  cases ce with
  | none => exact ⟨rfl, rfl⟩
  | some e =>
    by_cases h : truthy (field e "enabled") = true
    · simp [tickBody, h]
    · simp [tickBody, h]

theorem effectiveEnabled_tickBody (E : Engine) (pg : Page) :
    effectiveEnabled (tickBody E pg) = effectiveEnabled pg := by
  unfold effectiveEnabled
  rw [(tickBody_keeps E pg).2]

/-- While `observer` is `null`, `currentEffective` is `null` or not enabled:
this holds at the start and after every run of `applyFromStorage`. -/
theorem applyFromStorage_stopped (E : Engine) (host : String) (stored : Val) (pg : Page)
    (h : pg.observer = false → effectiveEnabled pg = false) :
    (applyFromStorage E host stored pg).observer = false →
      effectiveEnabled (applyFromStorage E host stored pg) = false := by
  unfold applyFromStorage
  cases hg : getAllSettings E stored with
  | none => exact h
  | some sw =>
    obtain ⟨settings, w⟩ := sw
    simp only []
    cases hr : computeEffective E settings host with
    | none => exact h
    | some r =>
      simp only []
      by_cases he : truthy (field r.effective "enabled") = true
      · obtain ⟨css, hcss⟩ := buildCss_of_computeEffective E settings host r hr
        intro hob
        have hon : (applyEffective E r.effective pg).observer = true := by
          obtain ⟨els, st, ob, ce⟩ := pg
          cases ob <;> cases st <;>
            simp [applyEffective, he, hcss, startObserver, setStyleText]
        rw [hon] at hob
        cases hob
      · intro _
        have he' : truthy (field r.effective "enabled") = false := by simpa using he
        obtain ⟨els, st, ob, ce⟩ := pg
        cases ob <;>
          simp [applyEffective, he', stopObserver, removeStyleEl, effectiveEnabled]

theorem step_stopped (E : Engine) (host : String) (sc : Script) (ev : Event)
    (h : sc.page.observer = false → effectiveEnabled sc.page = false) :
    (sc.step E host ev).page.observer = false →
      effectiveEnabled (sc.step E host ev).page = false := by
  cases ev with
  | reload stored =>
    have := applyFromStorage_stopped E host stored sc.page h
    unfold Script.step Script.reload
    by_cases hc : (!sc.page.observer && (applyFromStorage E host stored sc.page).observer) = true
    · simp only [hc, if_true]; exact this
    · simp only [hc]; exact this
  | mutation now =>
    unfold Script.step
    by_cases hob : sc.page.observer = true
    · simp only [hob, if_true]
      unfold throttled
      simp only []
      split
      · rw [(tickBody_keeps E sc.page).1, hob]; intro hf; cases hf
      · split
        · rw [hob]; intro hf; cases hf
        · rw [hob]; intro hf; cases hf
    · simp only [hob]; exact h
  | timer now =>
    unfold Script.step
    by_cases ht : sc.tick.timer.isSome = true
    · simp only [ht, if_true, timeoutCallback]
      rw [(tickBody_keeps E sc.page).1, effectiveEnabled_tickBody]
      exact h
    · simp only [ht]; exact h
  | staleTimer i now =>
    unfold Script.step
    by_cases hi : i < sc.stale.length
    · simp only [hi, if_true]
      rw [(tickBody_keeps E sc.page).1, effectiveEnabled_tickBody]
      exact h
    · simp only [hi]; exact h
  | domChange els =>
    exact h

theorem run_stopped (E : Engine) (host : String) (evs : List Event) (sc : Script)
    (h : sc.page.observer = false → effectiveEnabled sc.page = false) :
    (sc.run E host evs).page.observer = false →
      effectiveEnabled (sc.run E host evs).page = false := by
  induction evs generalizing sc with
  | nil => exact h
  | cons ev rest ih => exact ih (sc.step E host ev) (step_stopped E host sc ev h)

/-- C12. `stopObserver` is called by the branch of `applyFromStorage` that has
just stored a configuration that is not enabled in `currentEffective`: there a
pass of the throttle leaves the page as it is.  And in every state the content
script can be in, after any events, in which `observer` is `null`, a timeout of
the throttle (of the last closure or of an earlier one) that fires suppresses no
element: the page is unchanged. -/
theorem trailing_pass_after_stop_is_noop (E : Engine) (host : String) :
    (∀ (e : Props) (pg : Page), truthy (field e "enabled") = false →
      (applyEffective E e pg).observer = false ∧
      tickBody E (applyEffective E e pg) = applyEffective E e pg) ∧
    (∀ (els : List Elem) (evs : List Event) (now : Int) (i : Nat),
      ((Script.start els).run E host evs).page.observer = false →
      ((((Script.start els).run E host evs).step E host (.timer now)).page
          = ((Script.start els).run E host evs).page ∧
       (((Script.start els).run E host evs).step E host (.staleTimer i now)).page
          = ((Script.start els).run E host evs).page)) := by
  constructor
  · intro e pg he
    have hoff : (applyEffective E e pg).observer = false ∧
        effectiveEnabled (applyEffective E e pg) = false := by
      obtain ⟨els, st, ob, ce⟩ := pg
      cases ob <;>
        simp [applyEffective, he, stopObserver, removeStyleEl, effectiveEnabled]
    exact ⟨hoff.1, tickBody_of_not_enabled E _ hoff.2⟩
  · intro els evs now i hob
    have hinv := run_stopped E host evs (Script.start els) (fun _ => rfl) hob
    have hno := tickBody_of_not_enabled E _ hinv
    constructor
    · unfold Script.step
      by_cases ht : ((Script.start els).run E host evs).tick.timer.isSome = true
      · simp only [ht, if_true, timeoutCallback]; exact hno
      · simp only [ht]; rfl
    · unfold Script.step
      by_cases hi : i < ((Script.start els).run E host evs).stale.length
      · simp only [hi, if_true]; exact hno
      · simp only [hi]; rfl

/-- C12, witness: on the page `adPage`, the script starts with the defaults, a
mutation at time 1000 runs a pass at once, a mutation at 1100 schedules the
trailing pass for 1250, then the settings are disabled (`stopObserver`); the
timeout is still pending, and when it fires at 1250 the page is unchanged. -/
theorem trailing_pass_after_stop_is_noop_witness :
    ((Script.start adPageEls).run refEngine "x.com"
        [.reload .undefined, .mutation 1000, .mutation 1100,
         .reload (.obj [("global", .obj [("enabled", .bool false)])])]).tick.timer
      = some 1250 ∧
    ((applyEffective refEngine [("enabled", .bool false)] adPage).observer = false ∧
      tickBody refEngine (applyEffective refEngine [("enabled", .bool false)] adPage)
        = applyEffective refEngine [("enabled", .bool false)] adPage) ∧
    ((((Script.start adPageEls).run refEngine "x.com"
        [.reload .undefined, .mutation 1000, .mutation 1100,
         .reload (.obj [("global", .obj [("enabled", .bool false)])])]).step refEngine "x.com"
          (.timer 1250)).page
      = ((Script.start adPageEls).run refEngine "x.com"
        [.reload .undefined, .mutation 1000, .mutation 1100,
         .reload (.obj [("global", .obj [("enabled", .bool false)])])]).page ∧
     (((Script.start adPageEls).run refEngine "x.com"
        [.reload .undefined, .mutation 1000, .mutation 1100,
         .reload (.obj [("global", .obj [("enabled", .bool false)])])]).step refEngine "x.com"
          (.staleTimer 0 1250)).page
      = ((Script.start adPageEls).run refEngine "x.com"
        [.reload .undefined, .mutation 1000, .mutation 1100,
         .reload (.obj [("global", .obj [("enabled", .bool false)])])]).page) :=
  ⟨rfl,
   (trailing_pass_after_stop_is_noop refEngine "x.com").1 [("enabled", .bool false)] adPage rfl,
   (trailing_pass_after_stop_is_noop refEngine "x.com").2 adPageEls
     [.reload .undefined, .mutation 1000, .mutation 1100,
      .reload (.obj [("global", .obj [("enabled", .bool false)])])] 1250 0 rfl⟩

/-! ## Resolution on malformed settings -/

/-- C13, the failing input: with the stored settings `{"global": {"saturation":
{"toString": 1}}}`, which `getAllSettings` merges and returns with that
`saturation`, `computeEffective` throws for every host: `clamp` calls `Number`
on a record whose own `toString` is not a function, a `TypeError`. -/
theorem computeEffective_throws_on_unconvertible (E : Engine) (host : String) :
    computeEffective E
      (.obj [("global", .obj [("saturation", .obj [("toString", .num (.fin 1))])])]) host
      = none ∧
    (getAllSettings E
      (.obj [("global", .obj [("saturation", .obj [("toString", .num (.fin 1))])])])).map
        Prod.fst
      = some (.obj [("global", .obj [("enabled", .bool true), ("hideAds", .bool true),
          ("hideComments", .bool false), ("themeEnabled", .bool true),
          ("saturation", .obj [("toString", .num (.fin 1))]),
          ("contrast", .num (.fin (mkRat 108 100)))]), ("sites", .obj [])]) ∧
    computeEffective E
      (.obj [("global", .obj [("enabled", .bool true), ("hideAds", .bool true),
          ("hideComments", .bool false), ("themeEnabled", .bool true),
          ("saturation", .obj [("toString", .num (.fin 1))]),
          ("contrast", .num (.fin (mkRat 108 100)))]), ("sites", .obj [])]) host
      = none := by
  refine ⟨rfl, ?_, ?_⟩
  rotate_left
  · have hsite : (siteOf E (.obj [("global", .obj [("enabled", .bool true),
        ("hideAds", .bool true), ("hideComments", .bool false), ("themeEnabled", .bool true),
        ("saturation", .obj [("toString", .num (.fin 1))]),
        ("contrast", .num (.fin (mkRat 108 100)))]), ("sites", .obj [])]) host).ownEntries = []
        ∨ (siteOf E (.obj [("global", .obj [("enabled", .bool true),
        ("hideAds", .bool true), ("hideComments", .bool false), ("themeEnabled", .bool true),
        ("saturation", .obj [("toString", .num (.fin 1))]),
        ("contrast", .num (.fin (mkRat 108 100)))]), ("sites", .obj [])]) host).truthy = false := by
      have h0 : siteOf E (.obj [("global", .obj [("enabled", .bool true),
        ("hideAds", .bool true), ("hideComments", .bool false), ("themeEnabled", .bool true),
        ("saturation", .obj [("toString", .num (.fin 1))]),
        ("contrast", .num (.fin (mkRat 108 100)))]), ("sites", .obj [])]) host
          = inheritedGet host := rfl
      rw [h0]
      unfold inheritedGet
      by_cases h1 : host = "__proto__"
      · left; simp [h1, Ref.ownEntries]
      · by_cases h2 : host ∈ objectPrototypeNames
        · left; simp [h1, h2, Ref.ownEntries]
        · left; simp [h1, h2, Ref.ownEntries, ownEntries]
    have hmerged : mergedConfig E (.obj [("global", .obj [("enabled", .bool true),
        ("hideAds", .bool true), ("hideComments", .bool false), ("themeEnabled", .bool true),
        ("saturation", .obj [("toString", .num (.fin 1))]),
        ("contrast", .num (.fin (mkRat 108 100)))]), ("sites", .obj [])]) host
        = [("enabled", .bool true), ("hideAds", .bool true), ("hideComments", .bool false),
           ("themeEnabled", .bool true), ("saturation", .obj [("toString", .num (.fin 1))]),
           ("contrast", .num (.fin (mkRat 108 100)))] := by
      unfold mergedConfig
      simp only []
      split
      · rcases hsite with h | h
        · rw [h]; rfl
        · rename_i ht; rw [h] at ht; cases ht
      · rfl
    unfold computeEffective
    rw [hmerged]
    rfl
  have hm : deepMerge E DEFAULTS
      (.obj [("global", .obj [("saturation", .obj [("toString", .num (.fin 1))])])])
      = some (.obj [("global", .obj [("enabled", .bool true), ("hideAds", .bool true),
          ("hideComments", .bool false), ("themeEnabled", .bool true),
          ("saturation", .obj [("toString", .num (.fin 1))]),
          ("contrast", .num (.fin (mkRat 108 100)))]), ("sites", .obj [])]) := rfl
  unfold getAllSettings
  simp only [truthy, Bool.not_true, Bool.false_eq_true, if_false, hm]
  split <;> rfl

/-! ## The container of a match -/

theorem parentOf_some (doc : List Elem) (el p : Nat) (pe : Elem)
    (h : parentOf doc el = some (p, pe)) : doc[p]? = some pe := by
  unfold parentOf at h
  cases hd : doc[el]? with
  | none => rw [hd] at h; cases h
  | some e =>
    rw [hd] at h
    simp only [] at h
    cases hp : e.parentElement with
    | none => rw [hp] at h; cases h
    | some q =>
      rw [hp] at h
      simp only [] at h
      cases hq : doc[q]? with
      | none => rw [hq] at h; cases h
      | some qe =>
        rw [hq] at h
        simp only [Option.map, Option.some.injEq, Prod.mk.injEq] at h
        obtain ⟨h1, h2⟩ := h
        subst h1; subst h2
        exact hq

theorem bestContainerLoop_eq (E : Engine) (doc : List Elem) (n el : Nat) :
    bestContainerLoop E doc n el =
      match (ancestors doc n el).find? (signalAt E doc) with
      | some a => a
      | none => ((ancestors doc n el).getLast?).getD el := by
  induction n generalizing el with
  | zero => rfl
  | succ n ih =>
    unfold bestContainerLoop ancestors
    cases hp : parentOf doc el with
    | none => rfl
    | some ppe =>
      obtain ⟨p, pe⟩ := ppe
      have hsig : signalAt E doc p = containmentSignal E pe := by
        unfold signalAt
        rw [parentOf_some doc el p pe hp]
      simp only [List.find?_cons, hsig]
      by_cases hc : containmentSignal E pe = true
      · simp [hc]
      · have hc' : containmentSignal E pe = false := by simpa using hc
        simp only [hc', Bool.false_eq_true, if_false]
        rw [ih p]
        cases hf : (ancestors doc n p).find? (signalAt E doc) with
        | some a => rfl
        | none =>
          simp only []
          cases hl : (ancestors doc n p) with
          | nil => rfl
          | cons a rest =>
            rw [List.getLast?_cons_cons, List.getLast?_cons]
            rfl

theorem specContainer_mem (E : Engine) (doc : List Elem) (el : Nat) :
    specContainer E doc el ∈ el :: ancestors doc 3 el := by
  unfold specContainer
  cases hf : (ancestors doc 3 el).find? (signalAt E doc) with
  | some a => exact List.mem_cons_of_mem _ (List.mem_of_find?_eq_some hf)
  | none =>
    simp only []
    cases hl : (ancestors doc 3 el).getLast? with
    | none => exact List.mem_cons_self _ _
    | some a => exact List.mem_cons_of_mem _ (List.mem_of_getLast?_eq_some hl)

/-- C14. `bestContainer(el)` is a total function (its loop makes at most 3
rounds) and returns the container the specification describes: the nearest of
the first 3 ancestors of `el` that shows a containment signal when there is one,
otherwise the third ancestor, or the topmost one when there are fewer (`el`
itself when it has no parent). The result is `el` or one of its first 3
ancestors. In particular a match whose parent (`body`) and grandparent (the
root) show no signal, the root having no parent, resolves to the root. -/
theorem bestContainer_eq_specContainer (E : Engine) (doc : List Elem) (el : Nat) :
    bestContainer E doc el = specContainer E doc el ∧
    bestContainer E doc el ∈ el :: ancestors doc 3 el ∧
    (∀ (b r : Nat) (be re : Elem), parentOf doc el = some (b, be) →
      parentOf doc b = some (r, re) → parentOf doc r = none →
      containmentSignal E be = false → containmentSignal E re = false →
      bestContainer E doc el = r) := by
  have heq : bestContainer E doc el = specContainer E doc el :=
    bestContainerLoop_eq E doc 3 el
  refine ⟨heq, ?_, ?_⟩
  · rw [heq]; exact specContainer_mem E doc el
  · intro b r be re h1 h2 h3 s1 s2
    simp [bestContainer, bestContainerLoop, h1, h2, h3, s1, s2]

/-- C14, witness: on the page `<html><body><div data-ad>` the container of the
`div` is the root element. -/
theorem bestContainer_eq_specContainer_witness :
    bestContainer refEngine plainPageEls 2 = specContainer refEngine plainPageEls 2 ∧
    bestContainer refEngine plainPageEls 2 ∈ 2 :: ancestors plainPageEls 3 2 ∧
    bestContainer refEngine plainPageEls 2 = 0 :=
  ⟨(bestContainer_eq_specContainer refEngine plainPageEls 2).1,
   (bestContainer_eq_specContainer refEngine plainPageEls 2).2.1,
   (bestContainer_eq_specContainer refEngine plainPageEls 2).2.2 1 0
     { tagName := "BODY", parentElement := some 0, className := "", attrs := [], display := "" }
     { tagName := "HTML", parentElement := none, className := "", attrs := [], display := "" }
     rfl rfl rfl (by decide) (by decide)⟩

end StudyMode
